import Mathlib

/-!
Verification of the session-lifecycle and artifact pipeline of the
sustainability-backend repository.

The development shallowly embeds the Python sources:
  * `src/sustainability/main.py`      — session table and HTTP handlers
  * `src/sustainability/artifact_writer.py` — atomic JSON artifact store
  * `src/sustainability/validators.py`      — structural artifact validators
  * `src/sustainability/data_extractor.py`  — log extraction / dataset
    validation / message-pair integration

JSON values are modelled by the inductive type `Json`; Python `dict`s are
association lists with distinct keys, Python `None` is `Json.null` or an
`Option`, Python exceptions are `Option`/explicit error results, and wall
clock readings (`datetime.now()`) are explicit `Int` parameters.  Numeric
JSON literals are modelled as integers; no claim involves fractional JSON
numbers.  All definitions are executable.
-/

/-- Model of a JSON-compatible Python value.  Objects are association
lists whose keys are distinct (Python `dict`s); insertion order is kept,
matching Python 3.7+ `dict` iteration order. -/
inductive Json where
  | null : Json
  | bool (b : Bool) : Json
  | num (n : Int) : Json
  | str (s : String) : Json
  | arr (elements : List Json) : Json
  | obj (fields : List (String × Json)) : Json
deriving Repr

/- Decidable structural equality on `Json` (Python `==` on parsed JSON
values); written by hand because `deriving DecidableEq` does not support
this nested inductive. -/
mutual

def Json.decEq : (a b : Json) → Decidable (a = b)
  | .null, .null => isTrue rfl
  | .bool a, .bool b =>
      if h : a = b then isTrue (by rw [h]) else isFalse (fun hc => h (Json.bool.inj hc))
  | .num a, .num b =>
      if h : a = b then isTrue (by rw [h]) else isFalse (fun hc => h (Json.num.inj hc))
  | .str a, .str b =>
      if h : a = b then isTrue (by rw [h]) else isFalse (fun hc => h (Json.str.inj hc))
  | .arr a, .arr b =>
      match Json.decEqList a b with
      | isTrue h => isTrue (by rw [h])
      | isFalse h => isFalse (fun hc => h (Json.arr.inj hc))
  | .obj a, .obj b =>
      match Json.decEqFields a b with
      | isTrue h => isTrue (by rw [h])
      | isFalse h => isFalse (fun hc => h (Json.obj.inj hc))
  | .null, .bool _ => isFalse (fun h => Json.noConfusion h)
  | .null, .num _ => isFalse (fun h => Json.noConfusion h)
  | .null, .str _ => isFalse (fun h => Json.noConfusion h)
  | .null, .arr _ => isFalse (fun h => Json.noConfusion h)
  | .null, .obj _ => isFalse (fun h => Json.noConfusion h)
  | .bool _, .null => isFalse (fun h => Json.noConfusion h)
  | .bool _, .num _ => isFalse (fun h => Json.noConfusion h)
  | .bool _, .str _ => isFalse (fun h => Json.noConfusion h)
  | .bool _, .arr _ => isFalse (fun h => Json.noConfusion h)
  | .bool _, .obj _ => isFalse (fun h => Json.noConfusion h)
  | .num _, .null => isFalse (fun h => Json.noConfusion h)
  | .num _, .bool _ => isFalse (fun h => Json.noConfusion h)
  | .num _, .str _ => isFalse (fun h => Json.noConfusion h)
  | .num _, .arr _ => isFalse (fun h => Json.noConfusion h)
  | .num _, .obj _ => isFalse (fun h => Json.noConfusion h)
  | .str _, .null => isFalse (fun h => Json.noConfusion h)
  | .str _, .bool _ => isFalse (fun h => Json.noConfusion h)
  | .str _, .num _ => isFalse (fun h => Json.noConfusion h)
  | .str _, .arr _ => isFalse (fun h => Json.noConfusion h)
  | .str _, .obj _ => isFalse (fun h => Json.noConfusion h)
  | .arr _, .null => isFalse (fun h => Json.noConfusion h)
  | .arr _, .bool _ => isFalse (fun h => Json.noConfusion h)
  | .arr _, .num _ => isFalse (fun h => Json.noConfusion h)
  | .arr _, .str _ => isFalse (fun h => Json.noConfusion h)
  | .arr _, .obj _ => isFalse (fun h => Json.noConfusion h)
  | .obj _, .null => isFalse (fun h => Json.noConfusion h)
  | .obj _, .bool _ => isFalse (fun h => Json.noConfusion h)
  | .obj _, .num _ => isFalse (fun h => Json.noConfusion h)
  | .obj _, .str _ => isFalse (fun h => Json.noConfusion h)
  | .obj _, .arr _ => isFalse (fun h => Json.noConfusion h)

def Json.decEqList : (a b : List Json) → Decidable (a = b)
  | [], [] => isTrue rfl
  | a :: as, b :: bs =>
      match Json.decEq a b with
      | isFalse h => isFalse (fun hc => by injection hc with h1 h2; exact h h1)
      | isTrue h1 =>
        match Json.decEqList as bs with
        | isTrue h2 => isTrue (by rw [h1, h2])
        | isFalse h => isFalse (fun hc => by injection hc with g1 g2; exact h g2)
  | [], _ :: _ => isFalse (fun h => List.noConfusion h)
  | _ :: _, [] => isFalse (fun h => List.noConfusion h)

def Json.decEqFields : (a b : List (String × Json)) → Decidable (a = b)
  | [], [] => isTrue rfl
  | (ka, va) :: as, (kb, vb) :: bs =>
      if hk : ka = kb then
        match Json.decEq va vb with
        | isFalse h => isFalse (fun hc => by injection hc with h1 h2; exact h (congrArg Prod.snd h1))
        | isTrue hv =>
          match Json.decEqFields as bs with
          | isTrue h2 => isTrue (by rw [hk, hv, h2])
          | isFalse h => isFalse (fun hc => by injection hc with g1 g2; exact h g2)
      else isFalse (fun hc => by injection hc with h1 h2; exact hk (congrArg Prod.fst h1))
  | [], _ :: _ => isFalse (fun h => List.noConfusion h)
  | _ :: _, [] => isFalse (fun h => List.noConfusion h)

end

instance : DecidableEq Json := Json.decEq

/-- Python dict lookup `d[k]` / `d.get(k)`: first (unique) matching key. -/
def jlookup : List (String × Json) → String → Option Json
  | [], _ => none
  | (k, v) :: rest, key => if k = key then some v else jlookup rest key

/-- Python `d.get(key, default)` on a JSON object; `default` when `j` is a
dict without the key.  (The source only applies `.get` to dicts.) -/
def Json.getD (j : Json) (key : String) (default : Json) : Json :=
  match j with
  | .obj fields => (jlookup fields key).getD default
  | _ => default

/-- Python `key in d` for a dict; `none`-producing lookup. -/
def Json.get? (j : Json) (key : String) : Option Json :=
  match j with
  | .obj fields => jlookup fields key
  | _ => none

/-- Python truthiness of a JSON-compatible value (`bool(x)`). -/
def Json.truthy : Json → Bool
  | .null => false
  | .bool b => b
  | .num n => n != 0
  | .str s => s ≠ ""
  | .arr xs => xs ≠ []
  | .obj fields => fields ≠ []

/-- Python `len(x)` for the sized JSON values (str, list, dict).
`len` of a number/bool/None raises `TypeError` in Python; no claim
evaluates that case, it is modelled as 0. -/
def Json.pyLen : Json → Nat
  | .str s => s.length
  | .arr xs => xs.length
  | .obj fields => fields.length
  | _ => 0

/-- The elements Python iterates over in `for x in v`: list elements,
characters of a string, keys of a dict.  Iterating a number/bool/None
raises `TypeError`; no claim evaluates that case, modelled as `[]`. -/
def Json.pyElems : Json → List Json
  | .arr xs => xs
  | .str s => s.toList.map (fun c => Json.str (String.mk [c]))
  | .obj fields => fields.map (fun kv => Json.str kv.1)
  | _ => []

/-- Python `s.strip()`: remove leading and trailing whitespace. -/
def pyStrip (s : String) : String :=
  String.mk (((s.toList.dropWhile Char.isWhitespace).reverse.dropWhile
    Char.isWhitespace).reverse)

/-- `isinstance(v, str) and v.strip()`: a non-blank Python string. -/
def Json.isNonBlankStr : Json → Bool
  | .str s => pyStrip s ≠ ""
  | _ => false

/-- `isinstance(v, list)`. -/
def Json.isList : Json → Bool
  | .arr _ => true
  | _ => false

/-- `isinstance(v, dict)`. -/
def Json.isDict : Json → Bool
  | .obj _ => true
  | _ => false

/-! ### String helpers (Python `str` operations, over `List Char`) -/

/-- `listPrefix p l` : `p` is a prefix of `l`. -/
def listPrefix : List Char → List Char → Bool
  | [], _ => true
  | _ :: _, [] => false
  | a :: as, b :: bs => a == b && listPrefix as bs

/-- Python `needle in hay` over character lists. -/
def listContains (needle : List Char) : List Char → Bool
  | [] => listPrefix needle []
  | c :: rest => listPrefix needle (c :: rest) || listContains needle rest

/-- Python `sub in hay` for strings. -/
def strContains (hay sub : String) : Bool :=
  listContains sub.toList hay.toList

/-- Index of the first occurrence of `needle` (Python `str.find`, with
`none` for -1). -/
def listFindSub (needle : List Char) : List Char → Option Nat
  | [] => if listPrefix needle [] then some 0 else none
  | c :: rest =>
      if listPrefix needle (c :: rest) then some 0
      else (listFindSub needle rest).map (· + 1)

/-- Python `hay.find(sub)` (as `Option Nat`). -/
def strFind (hay sub : String) : Option Nat :=
  listFindSub sub.toList hay.toList

/-- Python `s.replace(old, new)`: left-to-right, non-overlapping, every
occurrence.  `old` is non-empty at every use site.  The recursion is
structural on the fuel so the kernel can evaluate it; every step
consumes at least one character, so fuel = input length never runs
out (the fuel-0 case is unreachable from `strReplace`). -/
def listReplace (oldP newP : List Char) : Nat → List Char → List Char
  | _, [] => []
  | 0, cs => cs
  | fuel + 1, c :: rest =>
      if listPrefix oldP (c :: rest) && oldP.length > 0 then
        newP ++ listReplace oldP newP fuel (rest.drop (oldP.length - 1))
      else
        c :: listReplace oldP newP fuel rest

/-- Python `s.replace(old, new)` for strings. -/
def strReplace (s oldP newP : String) : String :=
  String.mk (listReplace oldP.toList newP.toList s.toList.length s.toList)

/-- Python `s.endswith(t)`. -/
def strEndsWith (s t : String) : Bool :=
  listPrefix t.toList.reverse s.toList.reverse

/-- Python `s.count(c)` for a single character. -/
def strCountChar (s : String) (c : Char) : Nat :=
  s.toList.count c

/-! ### Session manager — `src/sustainability/main.py`

The process-wide `sessions: Dict[str, Dict[str, Any]]` table is modelled
as an association list keyed by the session id (keys unique; insertion
order kept).  `datetime.now()` readings are explicit `Int` parameters
(seconds); `uuid.uuid4()` is an explicit fresh-id parameter.  On-disk
side effects of cleanup (file and directory removal) are outside the
modelled state. -/

/-- `TrainingRequest` (pydantic model): three required string fields. -/
structure TrainingRequest where
  industry_focus : String
  regulatory_framework : String
  training_level : String
deriving Repr, DecidableEq

/-- `TrainingResponse` (pydantic model). -/
structure TrainingResponse where
  session_id : String
  status : String
  message : String
deriving Repr, DecidableEq

/-- One entry of `session["progress_updates"]`. -/
structure ProgressUpdate where
  timestamp : Int
  progress : Int
  step : String
  agent : String
  message : String
deriving Repr, DecidableEq

/-- One session record, mirroring the dict built in `create_session`.
`quality_score`/`data_completeness` are passed through unchanged by every
modelled operation, so their numeric type (`Int` here) is immaterial. -/
structure Session where
  id : String
  status : String
  progress : Int
  current_step : String
  created_at : Int
  completed_at : Option Int
  error : Option String
  request : TrainingRequest
  results : Option Json
  file_path : Option String
  progress_updates : List ProgressUpdate
  crew_log_file : Option String
  backup_directory : Option String
  extracted_data : Option Json
  validation_result : Option Json
  integration_result : Option Json
  quality_score : Option Int
  data_completeness : Option Int
deriving Repr, DecidableEq

/-- The global `sessions` table. -/
abbrev Sessions := List (String × Session)

/-- `session_id in sessions` / `sessions[session_id]` (read). -/
def lookupSession : Sessions → String → Option Session
  | [], _ => none
  | (k, v) :: rest, sid => if k = sid then some v else lookupSession rest sid

/-- Python dict assignment `sessions[sid] = s`: replace if present, else
append (insertion order). -/
def sessionsSet (T : Sessions) (sid : String) (s : Session) : Sessions :=
  if (lookupSession T sid).isSome then
    T.map (fun kv => if kv.1 = sid then (sid, s) else kv)
  else
    T ++ [(sid, s)]

/-- In-place mutation of the entry at `sid` (the source mutates
`sessions[session_id][...]` field by field). -/
def sessionsMutate (T : Sessions) (sid : String) (f : Session → Session) : Sessions :=
  T.map (fun kv => if kv.1 = sid then (kv.1, f kv.2) else kv)

/-- `create_session` (main.py lines 106–131): store a fresh record with
status `"created"`, progress 0, and every nullable field `None`. -/
def create_session (now : Int) (session_id : String) (training_request : TrainingRequest)
    (T : Sessions) : Sessions :=
  sessionsSet T session_id
    { id := session_id
      status := "created"
      progress := 0
      current_step := "Initializing multi-line JSON extraction system..."
      created_at := now
      completed_at := none
      error := none
      request := training_request
      results := none
      file_path := none
      progress_updates := []
      crew_log_file := none
      backup_directory := none
      extracted_data := none
      validation_result := none
      integration_result := none
      quality_score := none
      data_completeness := none }

/-- `update_session_progress` (main.py lines 133–148): no-op when the
session is unknown; otherwise set progress and step and append a
progress-history entry. -/
def update_session_progress (now : Int) (session_id : String) (progress : Int)
    (step : String) (agent : String) (message : String) (T : Sessions) : Sessions :=
  if (lookupSession T session_id).isSome then
    sessionsMutate T session_id (fun s =>
      { s with
          progress := progress
          current_step := step
          progress_updates := s.progress_updates ++
            [{ timestamp := now, progress := progress, step := step,
               agent := agent, message := message }] })
  else T

/-- The field updates `complete_session` applies to the session record
(main.py lines 154–167).  `if error:` is Python truthiness: the failed
branch is taken exactly for a non-None, non-empty error string. -/
def completeSessionUpdate (now : Int) (results : Option Json) (file_path : Option String)
    (error : Option String) (quality_score : Option Int) (data_completeness : Option Int)
    (s : Session) : Session :=
  let s1 := { s with
                completed_at := some now
                results := results
                file_path := file_path
                quality_score := quality_score
                data_completeness := data_completeness }
  match error with
  | some e =>
      if e ≠ "" then
        { s1 with status := "failed", error := some e, progress := 0 }
      else
        { s1 with status := "completed", progress := 100,
                  current_step := "Multi-line JSON training completed successfully!" }
  | none =>
      { s1 with status := "completed", progress := 100,
                current_step := "Multi-line JSON training completed successfully!" }

/-- `complete_session` (main.py lines 150–167): no-op when the session
is unknown, else apply `completeSessionUpdate` to its record. -/
def complete_session (now : Int) (session_id : String) (results : Option Json)
    (file_path : Option String) (error : Option String)
    (quality_score : Option Int) (data_completeness : Option Int)
    (T : Sessions) : Sessions :=
  if (lookupSession T session_id).isSome then
    sessionsMutate T session_id
      (completeSessionUpdate now results file_path error quality_score data_completeness)
  else T

/-- `cleanup_old_sessions` (main.py lines 169–206): drop every session
older than 4 hours (file removals are I/O effects outside this state). -/
def cleanup_old_sessions (now : Int) (T : Sessions) : Sessions :=
  T.filter (fun kv => !(kv.2.created_at < now - 4 * 3600))

/-- The `cleanup_session_files` closure scheduled after a download
(main.py lines 721–749): removes the session from the table. -/
def purge_session (session_id : String) (T : Sessions) : Sessions :=
  T.filter (fun kv => kv.1 ≠ session_id)

/-- `start_enhanced_training` (main.py lines 658–679): cleanup, then
reject when `industry_focus` or `regulatory_framework` is falsy (the
handler never inspects `training_level`), else create a session and
answer `status="started"`.  The error case carries the HTTP status code
and detail of the raised `HTTPException`. -/
def start_enhanced_training (now : Int) (fresh_id : String)
    (request : TrainingRequest) (T : Sessions) :
    Sessions × Except (Nat × String) TrainingResponse :=
  let T1 := cleanup_old_sessions now T
  if request.industry_focus = "" || request.regulatory_framework = "" then
    (T1, Except.error (400, "Missing required fields"))
  else
    (create_session now fresh_id request T1,
     Except.ok { session_id := fresh_id, status := "started",
                 message := "Multi-line JSON training session started with FIXED extraction and validation" })

/-- The session tables reachable through the operations of main.py,
starting from the empty table at process start. -/
inductive SessionsReachable : Sessions → Prop where
  | init : SessionsReachable []
  | create (now : Int) (sid : String) (req : TrainingRequest) {T : Sessions} :
      SessionsReachable T → SessionsReachable (create_session now sid req T)
  | update (now : Int) (sid : String) (p : Int) (step agent msg : String) {T : Sessions} :
      SessionsReachable T →
      SessionsReachable (update_session_progress now sid p step agent msg T)
  | complete (now : Int) (sid : String) (results : Option Json)
      (fp : Option String) (err : Option String) (qs dc : Option Int) {T : Sessions} :
      SessionsReachable T →
      SessionsReachable (complete_session now sid results fp err qs dc T)
  | cleanup (now : Int) {T : Sessions} :
      SessionsReachable T → SessionsReachable (cleanup_old_sessions now T)
  | purge (sid : String) {T : Sessions} :
      SessionsReachable T → SessionsReachable (purge_session sid T)
  | start (now : Int) (sid : String) (req : TrainingRequest) {T : Sessions} :
      SessionsReachable T → SessionsReachable (start_enhanced_training now sid req T).1

/-! ### Artifact store — `src/sustainability/artifact_writer.py`

The disk is modelled per artifact name: `final`/`tmp` hold the JSON value
of `name`/`name.tmp` (`json.dump`/`json.load` round-trip the `Json`
model, so file contents are stored as parsed values). -/

/-- The metadata wrapper `write_artifact` builds around the payload
(artifact_writer.py lines 43–50). -/
def enrichArtifact (created_at : String) (filename : String) (data : Json) : Json :=
  Json.obj
    [("metadata", Json.obj
        [("created_at", Json.str created_at),
         ("filename", Json.str filename),
         ("schema_version", Json.str "1.0")]),
     ("data", data)]

/-- The steps `write_artifact` performs, in source order
(artifact_writer.py lines 33–70).  `fsyncTmp` is the flush/fsync step the
specification describes; it appears in this type only so that its absence
from `write_artifact_steps` can be stated — the source never calls
`flush`/`os.fsync`. -/
inductive WriteStep where
  | mkdirParents      -- artifact_dir.mkdir(parents=True, exist_ok=True)
  | writeTmp          -- open(temp_path, "w"); json.dump(enriched_data, f)
  | fsyncTmp          -- NOT in the source
  | verifyTmp         -- temp_path.exists() and stat().st_size check
  | renameTmpToFinal  -- temp_path.rename(final_path)  (os.rename, atomic)
  | verifyFinal       -- final_path.exists() check
deriving Repr, DecidableEq

/-- The sequence of steps the body of `write_artifact` executes. -/
def write_artifact_steps : List WriteStep :=
  [WriteStep.mkdirParents, WriteStep.writeTmp, WriteStep.verifyTmp,
   WriteStep.renameTmpToFinal, WriteStep.verifyFinal]

/-- Disk state for one artifact name: content of the final file and of
its `.tmp` sibling (in the same directory), `none` = absent. -/
structure FileState where
  final : Option Json
  tmp : Option Json
deriving Repr, DecidableEq

/-- Effect of one step completing normally; `content` is the enriched
document being written. -/
def stepOk (content : Json) : WriteStep → FileState → FileState
  | WriteStep.mkdirParents, fs => fs
  | WriteStep.writeTmp, fs => { fs with tmp := some content }
  | WriteStep.fsyncTmp, fs => fs
  | WriteStep.verifyTmp, fs => fs
  | WriteStep.renameTmpToFinal, fs =>
      -- os.rename: atomic replace of the final name by the temp file.
      match fs.tmp with
      | some c => { final := some c, tmp := none }
      | none => fs
  | WriteStep.verifyFinal, fs => fs

/-- Effect on the disk of a step that fails midway (the exception paths
of `write_artifact`): an interrupted temp write may leave arbitrary
partial `junk` in the temp file; a rename is atomic, so a failed rename
leaves the disk unchanged; the remaining steps do not write. -/
def stepCrash (junk : Json) : WriteStep → FileState → FileState
  | WriteStep.writeTmp, fs => { fs with tmp := some junk }
  | _, fs => fs

/-- Run `write_artifact` to completion: fold the steps over the disk. -/
def runWrite (content : Json) (fs : FileState) : FileState :=
  write_artifact_steps.foldl (fun st step => stepOk content step st) fs

/-- Run `write_artifact` but fail during step `k` (0-based): the first
`k` steps complete, step `k` applies its crash effect, nothing after it
runs.  `k ≥ 5` means no step failed (the full run). -/
def runWriteCrashAt (content junk : Json) (k : Nat) (fs : FileState) : FileState :=
  let prefixFold := (write_artifact_steps.take k).foldl
    (fun st step => stepOk content step st) fs
  match write_artifact_steps.drop k with
  | [] => prefixFold
  | step :: _ => stepCrash junk step prefixFold

/-- `read_artifact` (artifact_writer.py lines 93–127).  `file` is the
parsed content of the artifact file (`none` = file absent; the function
then returns None).  The branch `if "data" in raw_data` is Python `in`:
key membership for a dict, element membership for a list, substring for
a string; on a list/string containing "data" the subsequent indexing
`raw_data["data"]` raises, the broad `except` catches it and the function
returns None, and `in` on any other value raises `TypeError`, likewise
caught — giving the non-dict cases below. -/
def read_artifact (file : Option Json) : Option Json :=
  match file with
  | none => none
  | some (Json.obj fields) =>
      match jlookup fields "data" with
      | some d => some d
      | none => some (Json.obj fields)
  | some (Json.arr xs) =>
      if Json.str "data" ∈ xs then none else some (Json.arr xs)
  | some (Json.str s) =>
      if strContains s "data" then none else some (Json.str s)
  | some _ => none

/-! ### Structural validators — `src/sustainability/validators.py` -/

/-- Python `str(v)` as used inside the validator f-strings.  Faithful for
strings and scalars; container rendering approximates Python `repr`
(never evaluated by any claim, which only exercises string ids). -/
def pyStr : Json → String
  | .null => "None"
  | .bool true => "True"
  | .bool false => "False"
  | .num n => toString n
  | .str s => s
  | .arr _ => "[...]"
  | .obj _ => "\x7b...\x7d"

/-- Error lines for one required string field of a problems entry
(validators.py lines 92–98); `i` is the 0-based entry index. -/
def reqFieldError (i : Nat) (msg : Json) (field : String) : List String :=
  match msg.get? field with
  | none =>
      ["Message " ++ toString (i + 1) ++ ": Missing required field \x27" ++ field ++ "\x27"]
  | some v =>
      if !v.isNonBlankStr then
        ["Message " ++ toString (i + 1) ++ ": Field \x27" ++ field ++
          "\x27 must be a non-empty string"]
      else []

/-- Error lines for one optional list field of a problems entry
(validators.py lines 107–110). -/
def listFieldError (i : Nat) (msg : Json) (field : String) : List String :=
  match msg.get? field with
  | some v =>
      if !v.isList then
        ["Message " ++ toString (i + 1) ++ ": Field \x27" ++ field ++ "\x27 must be a list"]
      else []
  | none => []

/-- The per-entry loop of `validate_problems_artifact` (validators.py
lines 88–110), carrying the 0-based index and the `found_ids`
accumulator. -/
def problemsLoop : Nat → List Json → List Json → List String
  | _, _, [] => []
  | i, found_ids, msg :: rest =>
      let fieldErrs :=
        (["id", "message", "why_problematic"].map (reqFieldError i msg)).flatten
      let dupState :=
        match msg.get? "id" with
        | some idv =>
            (if idv ∈ found_ids then
               ["Message " ++ toString (i + 1) ++ ": Duplicate message ID \x27" ++
                 pyStr idv ++ "\x27"]
             else [],
             found_ids ++ [idv])
        | none => ([], found_ids)
      let listErrs :=
        (["problems_identified", "regulatory_violations", "potential_consequences"].map
          (listFieldError i msg)).flatten
      fieldErrs ++ dupState.1 ++ listErrs ++ problemsLoop (i + 1) dupState.2 rest

/-- `validate_problems_artifact` (validators.py lines 61–112).  The
source annotates `data: Dict[str, Any]`; entries of the messages list the
source reads with `field in msg` are dicts in every claim (a non-dict
entry would raise `TypeError` in Python, a case no claim evaluates). -/
def validate_problems_artifact (data : Json) : Bool × List String :=
  match data.get? "problematic_messages" with
  | none => (false, ["Missing required field: problematic_messages"])
  | some m =>
      match m with
      | Json.arr messages =>
          if messages.length ≠ 4 then
            (false, ["Must have exactly 4 problematic messages, got " ++
              toString messages.length])
          else
            let errors := problemsLoop 0 [] messages
            (errors.isEmpty, errors)
      | _ => (false, ["Field \x27problematic_messages\x27 must be a list"])

/-! ### A model of Python `json.loads`

Strict JSON: double-quoted strings with the standard escapes, rejecting
unescaped control characters (`\u` escapes are taken as single code
units; surrogate-pair combination is outside the modelled fragment);
`true`/`false`/`null`; integer numbers (fractional and exponent forms,
and Python's `NaN`/`Infinity` extensions, are outside the modelled JSON
fragment — no claim evaluates one); arrays; objects, where a duplicate
key keeps the first key's position with the last value, as a Python dict
does.  Parsing is fuelled by the input length (see `json_loads`). -/

/-- JSON whitespace (what `json.loads` skips between tokens). -/
def isJsonWs (c : Char) : Bool :=
  c = ' ' || c = '\t' || c = '\n' || c = '\r'

/-- Value of one hex digit. -/
def hexVal (c : Char) : Option Nat :=
  if '0' ≤ c ∧ c ≤ '9' then some (c.toNat - '0'.toNat)
  else if 'a' ≤ c ∧ c ≤ 'f' then some (c.toNat - 'a'.toNat + 10)
  else if 'A' ≤ c ∧ c ≤ 'F' then some (c.toNat - 'A'.toNat + 10)
  else none

/-- Parse the body of a JSON string (after the opening quote).
Fuel-structural (the recursion through the `\\u` branch drops four
characters at once); every step consumes at least one character, so
fuel = remaining input length suffices and the fuel-0 case is never
reached from the parser below. -/
def parseJsonString : Nat → List Char → Option (List Char × List Char)
  | _, [] => none
  | 0, _ => none
  | _ + 1, '"' :: rest => some ([], rest)
  | fuel + 1, '\\' :: e :: rest =>
      match e with
      | '"' => (parseJsonString fuel rest).map (fun p => ('"' :: p.1, p.2))
      | '\\' => (parseJsonString fuel rest).map (fun p => ('\\' :: p.1, p.2))
      | '/' => (parseJsonString fuel rest).map (fun p => ('/' :: p.1, p.2))
      | 'n' => (parseJsonString fuel rest).map (fun p => ('\n' :: p.1, p.2))
      | 't' => (parseJsonString fuel rest).map (fun p => ('\t' :: p.1, p.2))
      | 'r' => (parseJsonString fuel rest).map (fun p => ('\r' :: p.1, p.2))
      | 'b' => (parseJsonString fuel rest).map (fun p => (Char.ofNat 8 :: p.1, p.2))
      | 'f' => (parseJsonString fuel rest).map (fun p => (Char.ofNat 12 :: p.1, p.2))
      | 'u' =>
          match rest with
          | h1 :: h2 :: h3 :: h4 :: rest2 =>
              match hexVal h1, hexVal h2, hexVal h3, hexVal h4 with
              | some a, some b, some c, some d =>
                  (parseJsonString fuel rest2).map
                    (fun p => (Char.ofNat (((a * 16 + b) * 16 + c) * 16 + d) :: p.1, p.2))
              | _, _, _, _ => none
          | _ => none
      | _ => none
  | fuel + 1, c :: rest =>
      if c.toNat < 32 then none
      else (parseJsonString fuel rest).map (fun p => (c :: p.1, p.2))

/-- Parse a JSON integer literal: optional minus, then `0` or a nonzero
digit followed by digits; a following `.`, `e` or `E` (a float) is
outside the modelled fragment and fails. -/
def parseJsonNumber (cs : List Char) : Option (Int × List Char) :=
  let core : List Char → Option (Nat × List Char) := fun ds =>
    match ds with
    | [] => none
    | d :: rest =>
        if d = '0' then some (0, rest)
        else if d.isDigit then
          let more := rest.takeWhile Char.isDigit
          some ((d :: more).foldl (fun n c => n * 10 + (c.toNat - 48)) 0,
            rest.drop more.length)
        else none
  let signed : Option (Int × List Char) :=
    match cs with
    | '-' :: rest => (core rest).map (fun p => (-(p.1 : Int), p.2))
    | _ => (core cs).map (fun p => ((p.1 : Int), p.2))
  match signed with
  | some (n, rest) =>
      match rest with
      | c :: _ => if c = '.' || c = 'e' || c = 'E' then none else some (n, rest)
      | [] => some (n, rest)
  | none => none

/-- Insert into a parsed object as Python builds its dict: a duplicate
key keeps its first position and takes the last value. -/
def objInsert : List (String × Json) → String → Json → List (String × Json)
  | [], k, v => [(k, v)]
  | (k0, v0) :: rest, k, v =>
      if k0 = k then (k0, v) :: rest else (k0, v0) :: objInsert rest k v

mutual

def parseJsonValue : Nat → List Char → Option (Json × List Char)
  | 0, _ => none
  | fuel + 1, cs =>
      match cs.dropWhile isJsonWs with
      | [] => none
      | '"' :: rest =>
          (parseJsonString rest.length rest).map (fun p => (Json.str (String.mk p.1), p.2))
      | '[' :: rest =>
          match (rest.dropWhile isJsonWs) with
          | ']' :: rest2 => some (Json.arr [], rest2)
          | _ => parseJsonArray fuel rest []
      | '\x7b' :: rest =>
          match (rest.dropWhile isJsonWs) with
          | '\x7d' :: rest2 => some (Json.obj [], rest2)
          | _ => parseJsonObject fuel rest []
      | 't' :: rest =>
          if listPrefix "rue".toList rest then some (Json.bool true, rest.drop 3) else none
      | 'f' :: rest =>
          if listPrefix "alse".toList rest then some (Json.bool false, rest.drop 4) else none
      | 'n' :: rest =>
          if listPrefix "ull".toList rest then some (Json.null, rest.drop 3) else none
      | other => (parseJsonNumber other).map (fun p => (Json.num p.1, p.2))

def parseJsonArray : Nat → List Char → List Json → Option (Json × List Char)
  | 0, _, _ => none
  | fuel + 1, cs, acc =>
      match parseJsonValue fuel cs with
      | none => none
      | some (v, rest) =>
          match rest.dropWhile isJsonWs with
          | ',' :: rest2 => parseJsonArray fuel rest2 (acc ++ [v])
          | ']' :: rest2 => some (Json.arr (acc ++ [v]), rest2)
          | _ => none

def parseJsonObject : Nat → List Char → List (String × Json) → Option (Json × List Char)
  | 0, _, _ => none
  | fuel + 1, cs, acc =>
      match cs.dropWhile isJsonWs with
      | '"' :: rest =>
          match parseJsonString rest.length rest with
          | none => none
          | some (key, rest2) =>
              match rest2.dropWhile isJsonWs with
              | ':' :: rest3 =>
                  match parseJsonValue fuel rest3 with
                  | none => none
                  | some (v, rest4) =>
                      let acc2 := objInsert acc (String.mk key) v
                      match rest4.dropWhile isJsonWs with
                      | ',' :: rest5 => parseJsonObject fuel rest5 acc2
                      | '\x7d' :: rest5 => some (Json.obj acc2, rest5)
                      | _ => none
              | _ => none
      | _ => none

end

/-- Python `json.loads` on the modelled fragment: one value, surrounded
only by whitespace.  Fuel `2·length + 4`: along any chain of recursive
calls at least one character is consumed per two fuel units (a
`value → array/object` step consumes the opening bracket, an
`array → value` step may consume nothing), so the fuel never runs out on
any input. -/
def json_loads (s : String) : Option Json :=
  match parseJsonValue (2 * s.length + 4) s.toList with
  | some (v, rest) => if rest.dropWhile isJsonWs = [] then some v else none
  | none => none

/-! ### Log extractor — `src/sustainability/data_extractor.py`, class `LogParser`

The log file is a list of lines (newline terminators already split off,
as `readlines()` + `.strip()` makes them irrelevant).  The parser's
`extraction_log` is diagnostic only (spec §4.3: "allowed to be
verbose/noisy"); its entries are modelled as short strings without the
emoji prefixes, and no claim reads them. -/

/-- Python `\s` (ASCII whitespace as used by the `re` patterns here). -/
def isPySpace (c : Char) : Bool :=
  c = ' ' || c = '\t' || c = '\n' || c = '\r' || c.toNat = 11 || c.toNat = 12

/-- Python `\w` (word character; ASCII range, which covers every use). -/
def isWordChar (c : Char) : Bool :=
  c.isAlphanum || c = '_'

/-- `re.search(r'task_name="([^"]+)"', line)`: leftmost position where
`task_name="` is followed by one or more non-quote characters and a
closing quote; returns the capture. -/
def taskNameSearch : List Char → Option (List Char)
  | [] => none
  | c :: rest =>
      let pre := "task_name=\"".toList
      if listPrefix pre (c :: rest) then
        let after := (c :: rest).drop pre.length
        let cap := after.takeWhile (fun x => x ≠ '"')
        if cap.length > 0 && (after.drop cap.length).head? = some '"' then some cap
        else taskNameSearch rest
      else taskNameSearch rest

/-- Count `{` minus `}` over a line (the brace-depth step of the
multi-line collector, data_extractor.py lines 113–117). -/
def braceDelta (s : String) : Int :=
  s.toList.foldl
    (fun acc c => if c = '\x7b' then acc + 1 else if c = '\x7d' then acc - 1 else acc) 0

/-- `re.sub(r'^\d{4}-\d{2}-\d{2} \d{2}:\d{2}:\d{2}:', '', line)`:
remove a leading timestamp prefix (anchored, so at most once). -/
def stripTsPrefix (line : String) : String :=
  match line.toList with
  | y1 :: y2 :: y3 :: y4 :: '-' :: m1 :: m2 :: '-' :: d1 :: d2 :: ' ' ::
    h1 :: h2 :: ':' :: n1 :: n2 :: ':' :: s1 :: s2 :: ':' :: rest =>
      if [y1, y2, y3, y4, m1, m2, d1, d2, h1, h2, n1, n2, s1, s2].all Char.isDigit then
        String.mk rest
      else line
  | _ => line

/-- Take the run of non-quote characters and require a closing quote:
the shape `[^"]*"` that each piece of the log-artifact pattern has. -/
def quoteSeg (cs : List Char) : Option (List Char × List Char) :=
  let seg := cs.takeWhile (fun x => x ≠ '"')
  match cs.drop seg.length with
  | '"' :: rest => some (seg, rest)
  | _ => none

/-- Length of a match of `task_name="[^"]*"[^"]*status="[^"]*"[^"]*output="`
starting exactly at the head of `cs` (the pattern's `[^"]*` pieces cannot
cross a quote, so the match is the unique decomposition by consecutive
quotes, with the second segment ending in `status=` and the fourth in
`output=`). -/
def artifactMatchLen (cs : List Char) : Option Nat :=
  let pre := "task_name=\"".toList
  if listPrefix pre cs then
    match quoteSeg (cs.drop pre.length) with
    | none => none
    | some (sA, r1) =>
        match quoteSeg r1 with
        | none => none
        | some (sB, r2) =>
            if listPrefix "=sutats".toList sB.reverse then
              match quoteSeg r2 with
              | none => none
              | some (sC, r3) =>
                  match quoteSeg r3 with
                  | none => none
                  | some (sD, _) =>
                      if listPrefix "=tuptuo".toList sD.reverse then
                        some (pre.length + sA.length + 1 + sB.length + 1 +
                              sC.length + 1 + sD.length + 1)
                      else none
            else none
  else none

/-- `re.sub` of the log-artifact pattern with `''`: drop every
(non-overlapping, leftmost) match.  Fuel-structural (a match consumes
at least its first character, so fuel = input length suffices; the
fuel-0 case is unreachable from `cleanLine`). -/
def logArtifactScan : Nat → List Char → List Char
  | _, [] => []
  | 0, cs => cs
  | fuel + 1, c :: rest =>
      match artifactMatchLen (c :: rest) with
      | some n => logArtifactScan fuel (rest.drop (n - 1))
      | none => c :: logArtifactScan fuel rest

/-- One line of `_clean_multiline_json`'s loop (data_extractor.py lines
164–179): strip a timestamp prefix, drop log-artifact wrapper text,
remove a trailing quote when the line's quote count is odd, strip. -/
def cleanLine (line : String) : String :=
  let l1 := stripTsPrefix line
  let l2 := String.mk (logArtifactScan l1.toList.length l1.toList)
  let l3 :=
    if strEndsWith l2 "\"" && strCountChar l2 '"' % 2 = 1 then
      String.mk l2.toList.dropLast
    else l2
  pyStrip l3

/-- `str.rfind(c)` as an `Option`. -/
def listRFindChar (c : Char) (cs : List Char) : Option Nat :=
  match cs.reverse.findIdx? (fun x => x = c) with
  | some j => some (cs.length - 1 - j)
  | none => none

/-- `s.split("\n")`: split on every newline, keeping empty pieces
(so `""` gives `[""]` and a trailing newline gives a final `""`). -/
def splitNlGo : List Char → List Char → List String
  | [], cur => [String.mk cur.reverse]
  | c :: rest, cur =>
      if c = '\n' then String.mk cur.reverse :: splitNlGo rest []
      else splitNlGo rest (c :: cur)

/-- `_clean_multiline_json` (data_extractor.py lines 156–200). -/
def clean_multiline_json (json_str : String) : String :=
  if json_str = "" then ""
  else
    let lines := splitNlGo json_str.toList []
    let cleaned_lines := (lines.map cleanLine).filter (fun l => l ≠ "")
    let c1 := String.intercalate "\n" cleaned_lines
    let c2 := strReplace c1 "\\\"" "\""
    let c3 := strReplace c2 "\\n" "\n"
    let c4 := strReplace c3 "\\\\" "\\"
    let c5 :=
      if !(listPrefix ['\x7b'] c4.toList) then
        match strFind c4 "\x7b" with
        | some i => String.mk (c4.toList.drop i)
        | none => c4
      else c4
    if !(strEndsWith c5 "\x7d") then
      match listRFindChar '\x7d' c5.toList with
      | some i => String.mk (c5.toList.take (i + 1))
      | none => c5
    else c5

/-- `,(\s*[}\])` → `\1`: drop a comma standing (over whitespace) before
a closing bracket — the first JSON repair of `_attempt_json_repair`.
Fuel-structural; each step consumes at least one character. -/
def fixTrailingCommas : Nat → List Char → List Char
  | _, [] => []
  | 0, cs => cs
  | fuel + 1, c :: rest =>
      if c = ',' then
        let ws := rest.takeWhile isPySpace
        match (rest.drop ws.length).head? with
        | some b =>
            if b = '\x7d' || b = ']' then
              ws ++ [b] ++ fixTrailingCommas fuel (rest.drop (ws.length + 1))
            else c :: fixTrailingCommas fuel rest
        | none => c :: fixTrailingCommas fuel rest
      else c :: fixTrailingCommas fuel rest

/-- `(?<!\\)"(?=[^,}\]]*[,}\])` → `\"`: escape a quote not already
preceded by a backslash when one of `,`, `}`, `]` still occurs later
(the lookahead succeeds exactly then) — the second JSON repair.
`prev` is the character before the scan position in the original
string. -/
def fixUnescapedQuotes (prev : Option Char) : List Char → List Char
  | [] => []
  | c :: rest =>
      if c = '"' && prev ≠ some '\\' &&
         rest.any (fun x => x = ',' || x = '\x7d' || x = ']') then
        '\\' :: '"' :: fixUnescapedQuotes (some '"') rest
      else c :: fixUnescapedQuotes (some c) rest

/-- `(\w+):` → `"\1":`: quote a bare word standing before a colon — the
third JSON repair.  A maximal word run not followed by `:` cannot match
at any of its inner positions either, so the scan skips it whole.
Fuel-structural; each step consumes at least one character. -/
def fixBareKeys : Nat → List Char → List Char
  | _, [] => []
  | 0, cs => cs
  | fuel + 1, c :: rest =>
      if isWordChar c then
        let run := c :: rest.takeWhile isWordChar
        let after := rest.drop (run.length - 1)
        match after.head? with
        | some ':' => '"' :: (run ++ ['"', ':']) ++ fixBareKeys fuel (after.drop 1)
        | _ => run ++ fixBareKeys fuel after
      else c :: fixBareKeys fuel rest

/-- `_attempt_json_repair` (data_extractor.py lines 247–270): each fix
is applied to the original string, first parse success wins. -/
def attempt_json_repair (json_str : String) : Option Json :=
  match json_loads (String.mk (fixTrailingCommas json_str.toList.length json_str.toList)) with
  | some d => some d
  | none =>
      match json_loads (String.mk (fixUnescapedQuotes none json_str.toList)) with
      | some d => some d
      | none =>
          match json_loads (String.mk (fixBareKeys json_str.toList.length json_str.toList)) with
          | some d => some d
          | none => none

/-- `_process_task_data` (data_extractor.py lines 202–231): parse, keep
a dict (the structure validation at lines 213–219 only logs and returns
the data either way); on a parse error try the repairs, whose result is
returned when truthy. -/
def process_task_data (json_str : String) : Option Json :=
  match json_loads json_str with
  | some (Json.obj fields) => some (Json.obj fields)
  | some _ => none
  | none =>
      match attempt_json_repair json_str with
      | some d => if d.truthy then some d else none
      | none => none

/-- The inner collector of `_extract_multiline_task_completions`
(data_extractor.py lines 109–125): consume stripped lines while the
running brace count stays positive, stopping at the 100-past-the-start
safety cap; returns the collected lines and the number consumed.
`offset` is Python's `current_line - i` before the increment (1 at
entry). -/
def collectLoop : List String → Int → Nat → List String × Nat
  | [], _, _ => ([], 0)
  | l :: rest, brace_count, offset =>
      if brace_count ≤ 0 then ([], 0)
      else
        let next_line := pyStrip l
        let bc2 := brace_count + braceDelta next_line
        let off2 := offset + 1
        if off2 > 100 then ([next_line], 1)
        else
          let r := collectLoop rest bc2 off2
          (next_line :: r.1, r.2 + 1)

/-- Python dict assignment `task_data[name] = json` (first position kept,
value overwritten). -/
def taskDataSet : List (String × String) → String → String → List (String × String)
  | [], k, v => [(k, v)]
  | (k0, v0) :: rest, k, v =>
      if k0 = k then (k0, v) :: rest else (k0, v0) :: taskDataSet rest k v

/-- The outer scan of `_extract_multiline_task_completions`
(data_extractor.py lines 61–154): find a completed-task marker line,
read its task name and the start of the embedded JSON, collect lines by
brace depth, clean, keep the cleaned text when it parses; then continue
after the collected block. -/
def scanLoop : Nat → List String → List (String × String) → List (String × String)
  | 0, _, acc => acc
  | _ + 1, [], acc => acc
  | fuel + 1, l :: rest, acc =>
      let line := pyStrip l
      if strContains line "status=\"completed\"" && strContains line "output=\"" then
        match taskNameSearch line.toList with
        | none => scanLoop fuel rest acc
        | some nameChars =>
            let task_name := String.mk nameChars
            match strFind line "output=\"" with
            | none => scanLoop fuel rest acc
            | some output_start =>
                let json_content := line.toList.drop (output_start + 8)
                match listFindSub ['\x7b'] json_content with
                | none => scanLoop fuel rest acc
                | some brace_start =>
                    let firstPiece := String.mk (json_content.drop brace_start)
                    let collected := collectLoop rest 1 1
                    let full_json := String.intercalate "\n" (firstPiece :: collected.1)
                    let cleaned := clean_multiline_json full_json
                    let acc2 :=
                      if cleaned ≠ "" && (json_loads cleaned).isSome then
                        taskDataSet acc task_name cleaned
                      else acc
                    scanLoop fuel (rest.drop collected.2) acc2
      else scanLoop fuel rest acc

/-- `_extract_multiline_task_completions` over the file\x27s lines.  The
scan is fuel-structural so the kernel can run it; every `scanLoop` step
consumes at least one line, so fuel = number of lines suffices and the
fuel-0 case is never reached from here. -/
def extract_multiline_task_completions (log_lines : List String) : List (String × String) :=
  scanLoop log_lines.length log_lines []

/-- The extraction result dict built by `parse_session_log`
(data_extractor.py lines 20–28). -/
structure ExtractionResult where
  scenario_data : Option Json
  problematic_messages : Option Json
  corrected_messages : Option Json
  playbook_data : Option Json
  extraction_log : List String
  parsing_success : Bool
  total_tasks_found : Nat
deriving Repr, DecidableEq

/-- The initial (all-null) extraction result. -/
def emptyExtractionResult : ExtractionResult :=
  { scenario_data := none
    problematic_messages := none
    corrected_messages := none
    playbook_data := none
    extraction_log := []
    parsing_success := false
    total_tasks_found := 0 }

/-- `_categorize_task_data` (data_extractor.py lines 272–281): bucket by
keyword in the task name. -/
def categorize_task_data (task_name : String) (data : Json) (r : ExtractionResult) :
    ExtractionResult :=
  if strContains task_name "scenario" then { r with scenario_data := some data }
  else if strContains task_name "mistake" then { r with problematic_messages := some data }
  else if strContains task_name "best_practice" then { r with corrected_messages := some data }
  else if strContains task_name "playbook" then { r with playbook_data := some data }
  else r

/-- The body of the per-task loop in `parse_session_log` (data_extractor.py
lines 45–49): process one `(task_name, json)` entry; `if processed_data:`
is Python truthiness, so a processed task is categorized and counted only
when non-None and non-empty. -/
def processTaskStep (r : ExtractionResult) (nameJson : String × String) : ExtractionResult :=
  match process_task_data nameJson.2 with
  | some d =>
      if d.truthy then
        let r' := categorize_task_data nameJson.1 d r
        { r' with total_tasks_found := r'.total_tasks_found + 1 }
      else r
  | none => r

/-- `parse_session_log` (data_extractor.py lines 18–59).  `fs` maps a
path to the lines of an existing file (`none` = `os.path.exists` false).
The source wraps the body in a broad `try/except` that still returns the
result dict, so the function is total. -/
def parse_session_log (fs : String → Option (List String)) (log_file_path : String) :
    ExtractionResult :=
  match fs log_file_path with
  | none =>
      { emptyExtractionResult with
          extraction_log := ["Log file not found: " ++ log_file_path] }
  | some log_lines =>
      let r1 := { emptyExtractionResult with
                    extraction_log :=
                      ["Log file read successfully: " ++ toString log_lines.length ++ " lines"] }
      let task_data := extract_multiline_task_completions log_lines
      let r2 := task_data.foldl processTaskStep r1
      { r2 with parsing_success := decide (r2.total_tasks_found ≥ 3) }

/-! ### Dataset validator — `src/sustainability/data_extractor.py`, class `DataValidator`

The per-task scorers return the `score` entry of the dicts the source
builds; their `issues`/`strengths` lists (and the result's
`task_validations`/`data_richness` sub-structures) are diagnostic
surfaces no claim reads and are not modelled.  Scores are naturals;
the aggregated `quality_score` is the rational average Python's float
division produces. -/

/-- `_validate_scenario_completeness` (lines 342–365): +20 per present
truthy required field, +5 per present truthy quality field, capped at
100. -/
def validate_scenario_completeness (data : Json) : Nat :=
  let required := ["company_name", "industry", "product_service", "target_audience"]
  let quality := ["marketing_objectives", "sustainability_context", "preliminary_claims"]
  let s1 := 20 * (required.filter (fun f => (Json.getD data f Json.null).truthy)).length
  let s2 := 5 * (quality.filter (fun f => (Json.getD data f Json.null).truthy)).length
  min 100 (s1 + s2)

/-- `_validate_mistakes_completeness` (lines 367–393): +40 when at least
3 messages, +15 per message carrying the three detail keys, capped at
100. -/
def validate_mistakes_completeness (data : Json) : Nat :=
  match data.get? "problematic_messages" with
  | some messages =>
      let base := if messages.pyLen ≥ 3 then 40 else 0
      let detailed := (messages.pyElems.filter (fun m =>
        (m.get? "message").isSome && (m.get? "why_problematic").isSome &&
        (m.get? "problems_identified").isSome)).length
      min 100 (base + detailed * 15)
  | none => min 100 0

/-- `_validate_corrections_completeness` (lines 395–421): +40 when at
least 3 corrections, +15 per correction carrying the three detail keys,
capped at 100. -/
def validate_corrections_completeness (data : Json) : Nat :=
  match data.get? "corrected_messages" with
  | some corrections =>
      let base := if corrections.pyLen ≥ 3 then 40 else 0
      let detailed := (corrections.pyElems.filter (fun c =>
        (c.get? "corrected_message").isSome && (c.get? "changes_made").isSome &&
        (c.get? "compliance_notes").isSome)).length
      min 100 (base + detailed * 15)
  | none => min 100 0

/-- `_validate_playbook_completeness` (lines 423–444): +20 per present
truthy essential section, +10 when `claim_to_proof_framework` is a dict
with a `steps` key, capped at 100. -/
def validate_playbook_completeness (data : Json) : Nat :=
  let sections := ["dos_and_donts", "greenwashing_patterns",
                   "claim_to_proof_framework", "compliance_checklist"]
  let s1 := 20 * (sections.filter (fun f => (Json.getD data f Json.null).truthy)).length
  let s2 :=
    match data.get? "claim_to_proof_framework" with
    | some (Json.obj fields) => if (jlookup fields "steps").isSome then 10 else 0
    | _ => 0
  min 100 (s1 + s2)

/-- The validation-result dict of `validate_complete_dataset` (lines
291–298), restricted to the modelled fields. -/
structure DatasetValidation where
  is_complete : Bool
  quality_score : ℚ
  completeness_percentage : ℚ
  task_scores : List ℚ
  overall_issues : List String
deriving Repr, DecidableEq

/-- One bucket's contribution: its score when present and truthy
(`if extracted_data.get(...)`), else its missing-data issue line. -/
def bucketScore (bucket : Option Json) (scorer : Json → Nat) (missing : String) :
    List ℚ × List String :=
  match bucket with
  | some d => if d.truthy then ([(scorer d : ℚ)], []) else ([], [missing])
  | none => ([], [missing])

/-- `validate_complete_dataset` (data_extractor.py lines 289–340):
average the present buckets' scores; `is_complete` requires at least 3
scored buckets AND an average of at least 60. -/
def validate_complete_dataset (extracted : ExtractionResult) : DatasetValidation :=
  let b1 := bucketScore extracted.scenario_data validate_scenario_completeness
              "Missing scenario data"
  let b2 := bucketScore extracted.problematic_messages validate_mistakes_completeness
              "Missing problematic messages data"
  let b3 := bucketScore extracted.corrected_messages validate_corrections_completeness
              "Missing corrections data"
  let b4 := bucketScore extracted.playbook_data validate_playbook_completeness
              "Missing playbook data"
  let task_scores := b1.1 ++ b2.1 ++ b3.1 ++ b4.1
  let overall_issues := b1.2 ++ b2.2 ++ b3.2 ++ b4.2
  if task_scores.length ≠ 0 then
    let quality_score := task_scores.sum / (task_scores.length : ℚ)
    { is_complete := decide (task_scores.length ≥ 3) && decide (quality_score ≥ 60)
      quality_score := quality_score
      completeness_percentage := min 100 (((task_scores.length : ℚ) / 4) * 100)
      task_scores := task_scores
      overall_issues := overall_issues }
  else
    { is_complete := false
      quality_score := 0
      completeness_percentage := 0
      task_scores := task_scores
      overall_issues := overall_issues }

/-! ### Message-pair integrator — `src/sustainability/data_extractor.py`, class `DataIntegrator` -/

/-- One entry of the `integrated_messages` list (lines 538–544). -/
structure MessagePair where
  pair_id : Json
  problematic : Json
  correction : Option Json
  has_correction : Bool
  integration_complete : Bool
deriving Repr, DecidableEq

/-- `_validate_message_pair` (data_extractor.py lines 550–559): `False`
without a truthy correction; otherwise both `changes_made` and
`problems_identified` must be non-empty. -/
def validate_message_pair (problematic : Json) (correction : Option Json) : Bool :=
  match correction with
  | none => false
  | some c =>
      if !c.truthy then false
      else
        decide ((Json.getD c "changes_made" (Json.arr [])).pyLen > 0) &&
        decide ((Json.getD problematic "problems_identified" (Json.arr [])).pyLen > 0)

/-- Python dict assignment keyed by a JSON value (`correction_map`). -/
def assocSetJ : List (Json × Json) → Json → Json → List (Json × Json)
  | [], k, v => [(k, v)]
  | (k0, v0) :: rest, k, v =>
      if k0 = k then (k0, v) :: rest else (k0, v0) :: assocSetJ rest k v

/-- Python dict lookup keyed by a JSON value (`correction_map.get`). -/
def mapGetJ : List (Json × Json) → Json → Option Json
  | [], _ => none
  | (k0, v0) :: rest, k => if k0 = k then some v0 else mapGetJ rest k

/-- One step of the `correction_map` build (data_extractor.py lines
528–531): index a correction by its truthy `original_message_id`. -/
def correctionStep (m : List (Json × Json)) (c : Json) : List (Json × Json) :=
  let oid := Json.getD c "original_message_id" (Json.str "")
  if oid.truthy then assocSetJ m oid c else m

/-- The `correction_map` build (data_extractor.py lines 527–531). -/
def buildCorrectionMap (corrections : List Json) : List (Json × Json) :=
  corrections.foldl correctionStep []

/-- The pairing loop (data_extractor.py lines 534–546), with the 0-based
enumeration index. -/
def pairsGo (cmap : List (Json × Json)) : Nat → List Json → List MessagePair
  | _, [] => []
  | i, p :: rest =>
      let message_id := Json.getD p "id" (Json.str (toString (i + 1)))
      let correction := mapGetJ cmap message_id
      { pair_id := message_id
        problematic := p
        correction := correction
        has_correction := correction.isSome
        integration_complete := validate_message_pair p correction } ::
        pairsGo cmap (i + 1) rest

/-- `_integrate_message_pairs` (data_extractor.py lines 519–548). -/
def integrate_message_pairs (problematic_data corrected_data : Json) : List MessagePair :=
  let problematic_messages := (Json.getD problematic_data "problematic_messages" (Json.arr [])).pyElems
  let corrected_messages := (Json.getD corrected_data "corrected_messages" (Json.arr [])).pyElems
  pairsGo (buildCorrectionMap corrected_messages) 0 problematic_messages

/-! ### Side definitions used to state the claims -/

/-- A well-formed problems entry in the sense of the validator's checks:
`id`, `message`, `why_problematic` present as non-blank strings, and the
optional list fields, when present, actually lists. -/
def wellFormedProblemMsg (msg : Json) : Bool :=
  (["id", "message", "why_problematic"].all (fun f =>
    match msg.get? f with
    | some v => v.isNonBlankStr
    | none => false)) &&
  (["problems_identified", "regulatory_violations", "potential_consequences"].all (fun f =>
    match msg.get? f with
    | some v => v.isList
    | none => true))

/-- The scores of the present (truthy) artifact buckets, in bucket
order: the quantity the dataset-level completeness policy is stated
over. -/
def presentScores (d : ExtractionResult) : List ℚ :=
  (match d.scenario_data with
   | some j => if j.truthy then [(validate_scenario_completeness j : ℚ)] else []
   | none => []) ++
  (match d.problematic_messages with
   | some j => if j.truthy then [(validate_mistakes_completeness j : ℚ)] else []
   | none => []) ++
  (match d.corrected_messages with
   | some j => if j.truthy then [(validate_corrections_completeness j : ℚ)] else []
   | none => []) ++
  (match d.playbook_data with
   | some j => if j.truthy then [(validate_playbook_completeness j : ℚ)] else []
   | none => [])

/-! ### Concrete inputs used by counterexamples and witnesses -/

/-- A well-formed request (the end-to-end example of spec §8). -/
def sampleRequest : TrainingRequest :=
  { industry_focus := "retail", regulatory_framework := "EU", training_level := "intermediate" }

/-- A request whose `training_level` is empty. -/
def emptyLevelRequest : TrainingRequest :=
  { industry_focus := "retail", regulatory_framework := "EU", training_level := "" }

/-- A well-formed problems entry with the given id. -/
def mkProblem (idStr : String) : Json :=
  Json.obj
    [("id", Json.str idStr),
     ("message", Json.str ("msg " ++ idStr)),
     ("why_problematic", Json.str ("why " ++ idStr)),
     ("problems_identified", Json.arr [Json.str "vague claim"])]

/-- A problems payload with exactly 4 well-formed entries. -/
def problemsPayload4 : Json :=
  Json.obj [("problematic_messages",
    Json.arr [mkProblem "msg_1", mkProblem "msg_2", mkProblem "msg_3", mkProblem "msg_4"])]

/-- A problems payload with 3 entries. -/
def problemsPayload3 : Json :=
  Json.obj [("problematic_messages",
    Json.arr [mkProblem "msg_1", mkProblem "msg_2", mkProblem "msg_3"])]

/-- A problems payload with 5 entries. -/
def problemsPayload5 : Json :=
  Json.obj [("problematic_messages",
    Json.arr [mkProblem "msg_1", mkProblem "msg_2", mkProblem "msg_3", mkProblem "msg_4",
              mkProblem "msg_5"])]

/-- An entry lacking `why_problematic`. -/
def problemNoWhy : Json :=
  Json.obj
    [("id", Json.str "msg_2"),
     ("message", Json.str "msg"),
     ("problems_identified", Json.arr [Json.str "vague claim"])]

/-- A problems payload of 4 entries whose second lacks `why_problematic`. -/
def problemsPayloadNoWhy : Json :=
  Json.obj [("problematic_messages",
    Json.arr [mkProblem "msg_1", problemNoWhy, mkProblem "msg_3", mkProblem "msg_4"])]

/-- A scenario bucket that is truthy yet scores 0 (no recognised field). -/
def c9scenario : Json := Json.obj [("irrelevant", Json.num 1)]

/-- A problems bucket scoring 100. -/
def c9problems : Json :=
  Json.obj [("problematic_messages",
    Json.arr [mkProblem "m1", mkProblem "m2", mkProblem "m3", mkProblem "m4"])]

/-- A well-formed correction entry for the given problem id. -/
def mkCorrection (origId : String) : Json :=
  Json.obj
    [("original_message_id", Json.str origId),
     ("corrected_message", Json.str ("better " ++ origId)),
     ("changes_made", Json.arr [Json.str "removed vague claim"]),
     ("compliance_notes", Json.str "ok")]

/-- A corrections bucket scoring 100. -/
def c9corrections : Json :=
  Json.obj [("corrected_messages",
    Json.arr [mkCorrection "m1", mkCorrection "m2", mkCorrection "m3", mkCorrection "m4"])]

/-- A playbook bucket scoring 90. -/
def c9playbook : Json :=
  Json.obj
    [("dos_and_donts", Json.arr [Json.str "do"]),
     ("greenwashing_patterns", Json.arr [Json.str "pattern"]),
     ("claim_to_proof_framework", Json.obj [("steps", Json.arr [Json.str "step"])]),
     ("compliance_checklist", Json.obj [("questions", Json.arr [Json.str "q"])])]

/-- A dataset whose average score passes 60 although its (present,
truthy) scenario bucket scores 0. -/
def c9dataset : ExtractionResult :=
  { emptyExtractionResult with
      scenario_data := some c9scenario
      problematic_messages := some c9problems
      corrected_messages := some c9corrections
      playbook_data := some c9playbook }

/-- The table after creating session `s1` at time 0. -/
def c1table1 : Sessions := create_session 0 "s1" sampleRequest []

/-- The table after completing `s1` (no error) at time 5. -/
def c1table2 : Sessions := complete_session 5 "s1" none none none none none c1table1

/-- The record `s1` holds in `c1table2`. -/
def c1record : Session :=
  { id := "s1"
    status := "completed"
    progress := 100
    current_step := "Multi-line JSON training completed successfully!"
    created_at := 0
    completed_at := some 5
    error := none
    request := sampleRequest
    results := none
    file_path := none
    progress_updates := []
    crew_log_file := none
    backup_directory := none
    extracted_data := none
    validation_result := none
    integration_result := none
    quality_score := none
    data_completeness := none }

/-- The table after creating session `s2` at time 0. -/
def c2table : Sessions := create_session 0 "s2" sampleRequest []

/-- A problems payload with two entries, ids `m1` and `m2`. -/
def c8problems : Json :=
  Json.obj [("problematic_messages", Json.arr [mkProblem "m1", mkProblem "m2"])]

/-- A corrections payload whose only entry corrects `m1`. -/
def c8corrections : Json :=
  Json.obj [("corrected_messages", Json.arr [mkCorrection "m1"])]

/-- A corrections payload whose entry matches `m1` but lists zero
`changes_made`. -/
def c8correctionsEmptyChanges : Json :=
  Json.obj [("corrected_messages",
    Json.arr [Json.obj
      [("original_message_id", Json.str "m1"),
       ("corrected_message", Json.str "better"),
       ("changes_made", Json.arr []),
       ("compliance_notes", Json.str "ok")]])]


/-! ## Theorems

Shared helper lemmas about the session table, then one theorem per
claim, each with its witness or counterexample. -/

theorem lookupSession_cons (k : String) (v : Session) (rest : Sessions) (key : String) :
    lookupSession ((k, v) :: rest) key = if k = key then some v else lookupSession rest key := rfl

theorem lookup_map_set (T : Sessions) (sid : String) (s : Session) (sid' : String) :
    lookupSession (T.map (fun kv => if kv.1 = sid then (sid, s) else kv)) sid' =
      if sid' = sid then (if (lookupSession T sid).isSome then some s else none)
      else lookupSession T sid' := by
  induction T with
  | nil => by_cases h : sid' = sid <;> simp [lookupSession, h]
  | cons kv rest ih =>
      obtain ⟨k, v⟩ := kv
      by_cases hk : k = sid
      · subst hk
        by_cases hs : sid' = k
        · subst hs
          simp [lookupSession_cons, List.map_cons]
        · have h1 : ¬(k = sid') := fun hc => hs hc.symm
          simp [lookupSession_cons, List.map_cons, h1, hs, ih]
      · by_cases hs : sid' = sid
        · subst hs
          simp [lookupSession_cons, List.map_cons, hk, ih]
        · simp [lookupSession_cons, List.map_cons, hk, hs, ih]

theorem lookup_append_single (T : Sessions) (sid : String) (s : Session) (sid' : String) :
    lookupSession (T ++ [(sid, s)]) sid' =
      if (lookupSession T sid').isSome then lookupSession T sid'
      else if sid' = sid then some s else none := by
  induction T with
  | nil =>
      by_cases h : sid' = sid
      · subst h
        simp [lookupSession, lookupSession_cons]
      · have h1 : ¬(sid = sid') := fun hc => h hc.symm
        simp [lookupSession, lookupSession_cons, h, h1]
  | cons kv rest ih =>
      obtain ⟨k, v⟩ := kv
      by_cases hks : k = sid'
      · subst hks
        simp [lookupSession_cons, List.cons_append]
      · simp [lookupSession_cons, List.cons_append, hks, ih]

theorem lookupSession_mem {T : Sessions} {sid : String} {s : Session}
    (h : lookupSession T sid = some s) : (sid, s) ∈ T := by
  induction T with
  | nil => simp [lookupSession] at h
  | cons kv rest ih =>
      obtain ⟨k, v⟩ := kv
      rw [lookupSession_cons] at h
      by_cases hk : k = sid
      · rw [if_pos hk] at h
        subst hk
        cases h
        exact List.mem_cons_self _ _
      · rw [if_neg hk] at h
        exact List.mem_cons_of_mem _ (ih h)

theorem mem_sessionsSet {T : Sessions} {sid : String} {s : Session} {kv : String × Session}
    (h : kv ∈ sessionsSet T sid s) : kv ∈ T ∨ kv = (sid, s) := by
  unfold sessionsSet at h
  by_cases hp : (lookupSession T sid).isSome
  · rw [if_pos hp] at h
    obtain ⟨kv0, hkv0, heq⟩ := List.mem_map.mp h
    by_cases hk : kv0.1 = sid
    · rw [if_pos hk] at heq; right; exact heq.symm
    · rw [if_neg hk] at heq; left; exact heq ▸ hkv0
  · rw [if_neg hp] at h
    rcases List.mem_append.mp h with h1 | h1
    · exact Or.inl h1
    · right; simpa using h1

theorem mem_sessionsMutate {T : Sessions} {sid : String} {f : Session → Session}
    {kv : String × Session} (h : kv ∈ sessionsMutate T sid f) :
    kv ∈ T ∨ ∃ kv0 ∈ T, kv = (kv0.1, f kv0.2) := by
  unfold sessionsMutate at h
  obtain ⟨kv0, hkv0, heq⟩ := List.mem_map.mp h
  by_cases hk : kv0.1 = sid
  · rw [if_pos hk] at heq
    exact Or.inr ⟨kv0, hkv0, heq.symm⟩
  · rw [if_neg hk] at heq
    exact Or.inl (heq ▸ hkv0)

theorem lookupSession_sessionsMutate (T : Sessions) (sid : String) (f : Session → Session)
    (sid' : String) :
    lookupSession (sessionsMutate T sid f) sid' =
      if sid' = sid then (lookupSession T sid').map f else lookupSession T sid' := by
  induction T with
  | nil => by_cases h : sid' = sid <;> simp [sessionsMutate, lookupSession, h]
  | cons kv rest ih =>
      obtain ⟨k, v⟩ := kv
      simp only [sessionsMutate] at ih ⊢
      by_cases hk : k = sid
      · subst hk
        by_cases hs : sid' = k
        · subst hs
          simp [lookupSession_cons, List.map_cons, ih]
        · have h1 : ¬(k = sid') := fun hc => hs hc.symm
          simp [lookupSession_cons, List.map_cons, h1, hs, ih]
      · by_cases hs : sid' = sid
        · subst hs
          by_cases hks : k = sid'
          · subst hks
            simp at hk
          · simp [lookupSession_cons, List.map_cons, hk, hks, ih]
        · by_cases hks : k = sid'
          · subst hks
            simp [lookupSession_cons, List.map_cons, hk, hs]
          · simp [lookupSession_cons, List.map_cons, hk, hs, hks, ih]

theorem lookupSession_sessionsSet (T : Sessions) (sid : String) (s : Session)
    (sid' : String) :
    lookupSession (sessionsSet T sid s) sid' =
      if sid' = sid then some s else lookupSession T sid' := by
  unfold sessionsSet
  by_cases hp : (lookupSession T sid).isSome
  · rw [if_pos hp, lookup_map_set, if_pos hp]
  · rw [if_neg hp, lookup_append_single]
    by_cases hq : (lookupSession T sid').isSome
    · rw [if_pos hq]
      have hs : ¬(sid' = sid) := by
        intro hc; subst hc; exact hp hq
      rw [if_neg hs]
    · rw [if_neg hq]
      by_cases hs : sid' = sid
      · rw [if_pos hs, if_pos hs]
      · rw [if_neg hs, if_neg hs]
        cases hlv : lookupSession T sid' with
        | none => rfl
        | some v => rw [hlv] at hq; simp at hq
theorem completeSessionUpdate_status (now : Int) (results : Option Json)
    (fp : Option String) (err : Option String) (qs dc : Option Int) (s : Session) :
    (completeSessionUpdate now results fp err qs dc s).status = "completed" ∨
    (completeSessionUpdate now results fp err qs dc s).status = "failed" := by
  unfold completeSessionUpdate
  cases err with
  | none => left; rfl
  | some e =>
      by_cases he : e = ""
      · subst he; left; rfl
      · right
        simp only [ne_eq, he, not_false_eq_true, if_true]

theorem statuses_invariant {T : Sessions} (h : SessionsReachable T) :
    ∀ kv ∈ T, kv.2.status = "created" ∨ kv.2.status = "completed" ∨ kv.2.status = "failed" := by
  induction h with
  | init => intro kv hkv; simp at hkv
  | create now sid req hT ih =>
      intro kv hkv
      rcases mem_sessionsSet hkv with h1 | h1
      · exact ih kv h1
      · rw [h1]; left; rfl
  | update now sid p step agent msg hT ih =>
      intro kv hkv
      unfold update_session_progress at hkv
      split at hkv
      · rcases mem_sessionsMutate hkv with h1 | ⟨kv0, hkv0, heq⟩
        · exact ih kv h1
        · rw [heq]
          exact ih kv0 hkv0
      · exact ih kv hkv
  | complete now sid results fp err qs dc hT ih =>
      intro kv hkv
      unfold complete_session at hkv
      split at hkv
      · rcases mem_sessionsMutate hkv with h1 | ⟨kv0, hkv0, heq⟩
        · exact ih kv h1
        · rw [heq]
          rcases completeSessionUpdate_status now results fp err qs dc kv0.2 with h2 | h2
          · right; left; exact h2
          · right; right; exact h2
      · exact ih kv hkv
  | cleanup now hT ih =>
      intro kv hkv
      exact ih kv (List.mem_filter.mp hkv).1
  | purge sid hT ih =>
      intro kv hkv
      exact ih kv (List.mem_filter.mp hkv).1
  | start now sid req hT ih =>
      intro kv hkv
      unfold start_enhanced_training at hkv
      split at hkv
      · exact ih kv (List.mem_filter.mp hkv).1
      · rcases mem_sessionsSet hkv with h1 | h1
        · exact ih kv (List.mem_filter.mp h1).1
        · rw [h1]; left; rfl
/-- C1 (amended): the state machine realised by the code is
`created → (completed | failed)` with no intermediate state: in every
reachable session table every session's status is `created`, `completed`
or `failed`; in particular no session is ever observed in the claimed
`running` state. -/
theorem c1_statuses_no_running (T : Sessions) (h : SessionsReachable T) (sid : String)
    (s : Session) (hs : lookupSession T sid = some s) :
    (s.status = "created" ∨ s.status = "completed" ∨ s.status = "failed") ∧
    s.status ≠ "running" := by
  have hmem := statuses_invariant h (sid, s) (lookupSession_mem hs)
  refine ⟨hmem, ?_⟩
  rcases hmem with h1 | h1 | h1 <;> rw [h1] <;> decide

/-- C1 witness: a concrete reachable run (create, then complete). -/
theorem c1_statuses_no_running_witness :
    ((c1record.status = "created" ∨ c1record.status = "completed" ∨
      c1record.status = "failed") ∧ c1record.status ≠ "running") :=
  c1_statuses_no_running c1table2
    (SessionsReachable.complete 5 "s1" none none none none none
      (SessionsReachable.create 0 "s1" sampleRequest SessionsReachable.init))
    "s1" c1record (by decide)

/-- C1 counterexample: the claim "a session observed in a terminal state
was at some earlier point in state running" is false — this session is
terminal (`completed`) while the only earlier table of its run holds it
in `created`; `running` never occurs. -/
theorem c1_counterexample :
    (lookupSession c1table2 "s1").map Session.status = some "completed" ∧
    (lookupSession c1table1 "s1").map Session.status = some "created" ∧
    (lookupSession c1table1 "s1").map Session.status ≠ some "running" ∧
    (lookupSession c1table2 "s1").map Session.status ≠ some "running" := by
  decide
/-- C2 (amended): for a session present in the table, `complete` with a
non-empty error sets completed-at, status `failed`, progress 0 and
retains the error message; with no error it sets completed-at, status
`completed` and progress 100.  (A provided but *empty* error string is
falsy in Python and takes the success branch — see the
counterexample.) -/
theorem c2_complete_session (T : Sessions) (sid : String) (s : Session) (now : Int)
    (results : Option Json) (fp : Option String) (qs dc : Option Int)
    (h : lookupSession T sid = some s) :
    (∀ e : String, e ≠ "" →
      lookupSession (complete_session now sid results fp (some e) qs dc T) sid =
        some { s with completed_at := some now, results := results, file_path := fp,
                      quality_score := qs, data_completeness := dc,
                      status := "failed", error := some e, progress := 0 }) ∧
    lookupSession (complete_session now sid results fp none qs dc T) sid =
      some { s with completed_at := some now, results := results, file_path := fp,
                    quality_score := qs, data_completeness := dc,
                    status := "completed", progress := 100,
                    current_step := "Multi-line JSON training completed successfully!" } := by
  have hps : (lookupSession T sid).isSome := by rw [h]; rfl
  constructor
  · intro e he
    unfold complete_session
    rw [if_pos hps, lookupSession_sessionsMutate, if_pos rfl, h]
    unfold completeSessionUpdate
    simp only [ne_eq, he, not_false_eq_true, if_true]
    rfl
  · unfold complete_session
    rw [if_pos hps, lookupSession_sessionsMutate, if_pos rfl, h]
    rfl

/-- C2 witness: a concrete session completed once with a real error and
once without. -/
theorem c2_complete_session_witness :
    (lookupSession (complete_session 7 "s2" none none (some "boom") none none c2table) "s2").map
        Session.status = some "failed" ∧
    (lookupSession (complete_session 7 "s2" none none (some "boom") none none c2table) "s2").map
        Session.progress = some 0 ∧
    (lookupSession (complete_session 7 "s2" none none (some "boom") none none c2table) "s2").map
        Session.error = some (some "boom") ∧
    (lookupSession (complete_session 7 "s2" none none none none none c2table) "s2").map
        Session.status = some "completed" ∧
    (lookupSession (complete_session 7 "s2" none none none none none c2table) "s2").map
        Session.progress = some 100 := by
  have h := c2_complete_session c2table "s2"
    { id := "s2", status := "created", progress := 0,
      current_step := "Initializing multi-line JSON extraction system...",
      created_at := 0, completed_at := none, error := none, request := sampleRequest,
      results := none, file_path := none, progress_updates := [], crew_log_file := none,
      backup_directory := none, extracted_data := none, validation_result := none,
      integration_result := none, quality_score := none, data_completeness := none }
    7 none none none none (by decide)
  rw [h.1 "boom" (by decide), h.2]
  refine ⟨rfl, rfl, rfl, rfl, rfl⟩

/-- C2 counterexample: `error = some ""` is non-null, yet the session
ends `completed` with progress 100, not `failed` with progress 0. -/
theorem c2_counterexample :
    (lookupSession (complete_session 7 "s2" none none (some "") none none c2table) "s2").map
        Session.status = some "completed" ∧
    (lookupSession (complete_session 7 "s2" none none (some "") none none c2table) "s2").map
        Session.progress = some 100 ∧
    (lookupSession (complete_session 7 "s2" none none (some "") none none c2table) "s2").map
        Session.status ≠ some "failed" := by
  decide
/-- C3 counterexample: the body of `write_artifact` performs no
flush/fsync of the temporary file before the rename — the claimed fsync
step is absent from the step sequence. -/
theorem c3_counterexample : WriteStep.fsyncTmp ∉ write_artifact_steps := by
  decide

/-- C3 (amended): `write_artifact` writes the full enriched document to
the temp path, closes it, and installs it with a single atomic rename
(no fsync).  Whatever step a run fails during — even a temp write
leaving arbitrary junk — the final name holds either its previous
content or the complete new document; a failure before the rename
(step index ≤ 3) leaves the final name exactly unchanged, and a
completed run (k ≥ 5) installs the new document and removes the temp
file. -/
theorem c3_write_artifact_atomic (now fn : String) (data junk : Json) (fs : FileState)
    (k : Nat) :
    (k ≤ 3 → (runWriteCrashAt (enrichArtifact now fn data) junk k fs).final = fs.final) ∧
    ((runWriteCrashAt (enrichArtifact now fn data) junk k fs).final = fs.final ∨
      (runWriteCrashAt (enrichArtifact now fn data) junk k fs).final =
        some (enrichArtifact now fn data)) ∧
    (k ≥ 5 → runWriteCrashAt (enrichArtifact now fn data) junk k fs =
      { final := some (enrichArtifact now fn data), tmp := none }) := by
  rcases k with _ | _ | _ | _ | _ | k5
  · exact ⟨fun _ => rfl, Or.inl rfl, fun h => absurd h (by omega)⟩
  · exact ⟨fun _ => rfl, Or.inl rfl, fun h => absurd h (by omega)⟩
  · exact ⟨fun _ => rfl, Or.inl rfl, fun h => absurd h (by omega)⟩
  · exact ⟨fun _ => rfl, Or.inl rfl, fun h => absurd h (by omega)⟩
  · exact ⟨fun h => absurd h (by omega), Or.inr rfl, fun h => absurd h (by omega)⟩
  · have hlen : write_artifact_steps.length ≤ k5 + 5 := by
      simp [write_artifact_steps]
    have ht : write_artifact_steps.take (k5 + 5) = write_artifact_steps :=
      List.take_of_length_le hlen
    have hd : write_artifact_steps.drop (k5 + 5) = [] :=
      List.drop_eq_nil_of_le hlen
    have hrun : runWriteCrashAt (enrichArtifact now fn data) junk (k5 + 5) fs =
        { final := some (enrichArtifact now fn data), tmp := none } := by
      unfold runWriteCrashAt
      rw [ht, hd]
      rfl
    refine ⟨fun h => absurd h (by omega), ?_, fun _ => hrun⟩
    rw [hrun]
    exact Or.inr rfl

/-- C3 witness: a failure during the temp write (crash point 1) over a
disk already holding an artifact leaves the final file unchanged. -/
theorem c3_write_artifact_atomic_witness :
    (runWriteCrashAt (enrichArtifact "t" "scenario.json" (Json.num 1)) Json.null 1
        { final := some (Json.num 7), tmp := none }).final = some (Json.num 7) ∧
    (runWriteCrashAt (enrichArtifact "t" "scenario.json" (Json.num 1)) Json.null 9
        { final := some (Json.num 7), tmp := none }) =
      { final := some (enrichArtifact "t" "scenario.json" (Json.num 1)), tmp := none } := by
  refine ⟨(c3_write_artifact_atomic "t" "scenario.json" (Json.num 1) Json.null
    { final := some (Json.num 7), tmp := none } 1).1 (by decide),
    (c3_write_artifact_atomic "t" "scenario.json" (Json.num 1) Json.null
    { final := some (Json.num 7), tmp := none } 9).2.2 (by decide)⟩
/-- C4 counterexample: a legacy bare-format file whose payload itself
has a top-level `data` key is *not* returned whole — the reader strips
to the value under `data`, so bare-format reading does not return the
unwrapped payload for every payload. -/
theorem c4_counterexample :
    read_artifact (some (Json.obj [("data", Json.num 1)])) = some (Json.num 1) ∧
    read_artifact (some (Json.obj [("data", Json.num 1)])) ≠
      some (Json.obj [("data", Json.num 1)]) := by
  decide

/-- C4 (amended): writing a payload and reading it back yields an equal
payload (the wrapper always carries a `data` key, which the reader
unwraps); and a legacy bare-format object file is returned whole
provided its payload has no top-level `data` key. -/
theorem c4_write_read_round_trip (created fn : String) (payload : Json)
    (fields : List (String × Json)) (h : jlookup fields "data" = none) :
    read_artifact (some (enrichArtifact created fn payload)) = some payload ∧
    read_artifact (some (Json.obj fields)) = some (Json.obj fields) := by
  have hred : read_artifact (some (Json.obj fields)) =
      (match jlookup fields "data" with
       | some d => some d
       | none => some (Json.obj fields)) := rfl
  constructor
  · rfl
  · rw [hred, h]

/-- C4 witness: a concrete payload round-trips, and a concrete bare
file without a `data` key is returned whole. -/
theorem c4_write_read_round_trip_witness :
    read_artifact (some (enrichArtifact "t" "scenario.json"
        (Json.obj [("company_name", Json.str "EcoThread")]))) =
      some (Json.obj [("company_name", Json.str "EcoThread")]) ∧
    read_artifact (some (Json.obj [("company_name", Json.str "EcoThread")])) =
      some (Json.obj [("company_name", Json.str "EcoThread")]) :=
  c4_write_read_round_trip "t" "scenario.json"
    (Json.obj [("company_name", Json.str "EcoThread")])
    [("company_name", Json.str "EcoThread")] (by decide)

/-- C10: the reader decides wrapped versus bare solely by the presence
of a top-level `data` key, so a bare object file containing one is read
as only the value under that key — write-then-read round-tripping fails
for externally written bare files with a `data` field. -/
theorem c10_bare_data_key (fields : List (String × Json)) (v : Json)
    (h : jlookup fields "data" = some v) (hne : v ≠ Json.obj fields) :
    read_artifact (some (Json.obj fields)) = some v ∧
    read_artifact (some (Json.obj fields)) ≠ some (Json.obj fields) := by
  have hred : read_artifact (some (Json.obj fields)) =
      (match jlookup fields "data" with
       | some d => some d
       | none => some (Json.obj fields)) := rfl
  rw [hred, h]
  refine ⟨rfl, ?_⟩
  intro hc
  exact hne (Option.some.inj hc)

/-- C10 witness: a concrete bare file with a `data` field loses its
other fields on read. -/
theorem c10_bare_data_key_witness :
    read_artifact (some (Json.obj [("data", Json.num 3), ("other", Json.str "y")])) =
      some (Json.num 3) ∧
    read_artifact (some (Json.obj [("data", Json.num 3), ("other", Json.str "y")])) ≠
      some (Json.obj [("data", Json.num 3), ("other", Json.str "y")]) :=
  c10_bare_data_key [("data", Json.num 3), ("other", Json.str "y")] (Json.num 3)
    (by decide) (by decide)
/-- C7 (amended): the start-training handler checks only
`industry_focus` and `regulatory_framework` for non-emptiness
(`training_level` is never inspected); a request failing that check is
rejected with HTTP 400 before any session is created — the table is
exactly the cleanup of the old one; a request passing it creates a
session (stored with status `created`) and answers its identifier with
status `started`. -/
theorem c7_start_training (now : Int) (fid : String) (req : TrainingRequest)
    (T : Sessions) :
    (req.industry_focus = "" ∨ req.regulatory_framework = "" →
      (start_enhanced_training now fid req T).2 =
        Except.error (400, "Missing required fields") ∧
      (start_enhanced_training now fid req T).1 = cleanup_old_sessions now T) ∧
    (req.industry_focus ≠ "" → req.regulatory_framework ≠ "" →
      (start_enhanced_training now fid req T).2 =
        Except.ok { session_id := fid
                    status := "started"
                    message := "Multi-line JSON training session started with FIXED extraction and validation" } ∧
      (lookupSession (start_enhanced_training now fid req T).1 fid).map Session.status =
        some "created") := by
  constructor
  · intro hbad
    have hcond : (req.industry_focus = "" || req.regulatory_framework = "") = true := by
      rcases hbad with h | h <;> simp [h]
    unfold start_enhanced_training
    rw [if_pos hcond]
    exact ⟨rfl, rfl⟩
  · intro h1 h2
    have hcond : (req.industry_focus = "" || req.regulatory_framework = "") = false := by
      simp [h1, h2]
    unfold start_enhanced_training
    rw [if_neg (by rw [hcond]; exact Bool.false_ne_true)]
    refine ⟨rfl, ?_⟩
    unfold create_session
    rw [lookupSession_sessionsSet, if_pos rfl]
    rfl

/-- C7 witness: a complete request is accepted, and a request with an
empty `industry_focus` is rejected without touching the (empty) table. -/
theorem c7_start_training_witness :
    (start_enhanced_training 0 "sid7" sampleRequest []).2 =
      Except.ok { session_id := "sid7"
                  status := "started"
                  message := "Multi-line JSON training session started with FIXED extraction and validation" } ∧
    (lookupSession (start_enhanced_training 0 "sid7" sampleRequest []).1 "sid7").map
        Session.status = some "created" ∧
    (start_enhanced_training 0 "sid8"
        { industry_focus := "", regulatory_framework := "EU", training_level := "x" } []).2 =
      Except.error (400, "Missing required fields") ∧
    (start_enhanced_training 0 "sid8"
        { industry_focus := "", regulatory_framework := "EU", training_level := "x" } []).1 =
      cleanup_old_sessions 0 [] := by
  have hok := (c7_start_training 0 "sid7" sampleRequest []).2 (by decide) (by decide)
  have hbad := (c7_start_training 0 "sid8"
    { industry_focus := "", regulatory_framework := "EU", training_level := "x" } []).1
    (Or.inl rfl)
  exact ⟨hok.1, hok.2, hbad.1, hbad.2⟩

/-- C7 counterexample: `training_level` is a required field of the
claim, yet a request with an empty `training_level` is accepted — the
handler answers `started` and creates the session. -/
theorem c7_counterexample :
    (start_enhanced_training 0 "sid9" emptyLevelRequest []).2 =
      Except.ok { session_id := "sid9"
                  status := "started"
                  message := "Multi-line JSON training session started with FIXED extraction and validation" } ∧
    (lookupSession (start_enhanced_training 0 "sid9" emptyLevelRequest []).1 "sid9").map
        Session.status = some "created" :=
  ⟨rfl, rfl⟩
theorem reqFieldError_nil {m : Json} {f : String} {v : Json} (i : Nat)
    (h1 : m.get? f = some v) (h2 : v.isNonBlankStr = true) : reqFieldError i m f = [] := by
  unfold reqFieldError
  rw [h1]
  simp [h2]

theorem listFieldError_nil_of_list {m : Json} {f : String} {v : Json} (i : Nat)
    (h1 : m.get? f = some v) (h2 : v.isList = true) : listFieldError i m f = [] := by
  unfold listFieldError
  rw [h1]
  simp [h2]

theorem listFieldError_nil_of_absent {m : Json} {f : String} (i : Nat)
    (h1 : m.get? f = none) : listFieldError i m f = [] := by
  unfold listFieldError
  rw [h1]

theorem wellFormed_req {m : Json} (h : wellFormedProblemMsg m = true) (f : String)
    (hf : f = "id" ∨ f = "message" ∨ f = "why_problematic") :
    ∃ v, m.get? f = some v ∧ v.isNonBlankStr = true := by
  unfold wellFormedProblemMsg at h
  rw [Bool.and_eq_true] at h
  have hall := h.1
  simp only [List.all_cons, List.all_nil, Bool.and_eq_true, Bool.and_true] at hall
  rcases hf with hf | hf | hf <;> subst hf
  · rcases hv : m.get? "id" with _ | v
    · rw [hv] at hall; simp at hall
    · rw [hv] at hall; exact ⟨v, rfl, hall.1⟩
  · rcases hv : m.get? "message" with _ | v
    · rw [hv] at hall; simp at hall
    · rw [hv] at hall; exact ⟨v, rfl, hall.2.1⟩
  · rcases hv : m.get? "why_problematic" with _ | v
    · rw [hv] at hall; simp at hall
    · rw [hv] at hall; exact ⟨v, rfl, hall.2.2⟩

theorem wellFormed_list {m : Json} (h : wellFormedProblemMsg m = true) (f : String)
    (hf : f = "problems_identified" ∨ f = "regulatory_violations" ∨
      f = "potential_consequences") (i : Nat) : listFieldError i m f = [] := by
  unfold wellFormedProblemMsg at h
  rw [Bool.and_eq_true] at h
  have hall := h.2
  simp only [List.all_cons, List.all_nil, Bool.and_eq_true, Bool.and_true] at hall
  rcases hf with hf | hf | hf <;> subst hf
  · rcases hv : m.get? "problems_identified" with _ | v
    · exact listFieldError_nil_of_absent i hv
    · rw [hv] at hall; exact listFieldError_nil_of_list i hv hall.1
  · rcases hv : m.get? "regulatory_violations" with _ | v
    · exact listFieldError_nil_of_absent i hv
    · rw [hv] at hall; exact listFieldError_nil_of_list i hv hall.2.1
  · rcases hv : m.get? "potential_consequences" with _ | v
    · exact listFieldError_nil_of_absent i hv
    · rw [hv] at hall; exact listFieldError_nil_of_list i hv hall.2.2

theorem problemsLoop_nil : ∀ (msgs : List Json) (i : Nat) (found : List Json),
    (∀ m ∈ msgs, wellFormedProblemMsg m = true) →
    ((msgs.map (fun m => m.get? "id")).Nodup) →
    (∀ m ∈ msgs, ∀ v, m.get? "id" = some v → v ∉ found) →
    problemsLoop i found msgs = []
  | [], _, _, _, _, _ => rfl
  | msg :: rest, i, found, hwf, hnodup, hdisj => by
      have hwfm := hwf msg (List.mem_cons_self _ _)
      obtain ⟨vid, hvid, hbid⟩ := wellFormed_req hwfm "id" (Or.inl rfl)
      obtain ⟨vmsg, hvmsg, hbmsg⟩ := wellFormed_req hwfm "message" (Or.inr (Or.inl rfl))
      obtain ⟨vwhy, hvwhy, hbwhy⟩ :=
        wellFormed_req hwfm "why_problematic" (Or.inr (Or.inr rfl))
      unfold problemsLoop
      rw [hvid]
      have hnotin : vid ∉ found := hdisj msg (List.mem_cons_self _ _) vid hvid
      simp only [List.map_cons, List.map_nil, List.flatten]
      rw [reqFieldError_nil i hvid hbid,
          reqFieldError_nil i hvmsg hbmsg, reqFieldError_nil i hvwhy hbwhy,
          wellFormed_list hwfm "problems_identified" (Or.inl rfl) i,
          wellFormed_list hwfm "regulatory_violations" (Or.inr (Or.inl rfl)) i,
          wellFormed_list hwfm "potential_consequences" (Or.inr (Or.inr rfl)) i]
      rw [if_neg hnotin]
      simp only [List.append_nil, List.nil_append, List.append_assoc]
      apply problemsLoop_nil rest (i + 1) (found ++ [vid])
      · intro m hm; exact hwf m (List.mem_cons_of_mem _ hm)
      · rw [List.map_cons] at hnodup
        exact hnodup.of_cons
      · intro m hm v hv hvin
        rcases List.mem_append.mp hvin with hin | hin
        · exact hdisj m (List.mem_cons_of_mem _ hm) v hv hin
        · simp only [List.mem_singleton] at hin
          subst hin
          rw [List.map_cons] at hnodup
          have := (List.nodup_cons.mp hnodup).1
          exact this (by
            rw [hvid, ← hv]
            exact List.mem_map_of_mem _ hm)
theorem problemsLoop_missing_why :
    ∀ (msgs : List Json) (j : Nat) (found : List Json) (i : Nat) (m : Json),
    msgs.get? i = some m → m.get? "why_problematic" = none →
    ("Message " ++ toString (j + i + 1) ++
      ": Missing required field \x27why_problematic\x27") ∈ problemsLoop j found msgs
  | [], _, _, i, _, hget, _ => by simp at hget
  | msg :: rest, j, found, 0, m, hget, hwhy => by
      simp only [List.get?_cons_zero, Option.some.injEq] at hget
      subst hget
      unfold problemsLoop
      have herr : reqFieldError j msg "why_problematic" =
          ["Message " ++ toString (j + 1) ++
            ": Missing required field \x27why_problematic\x27"] := by
        unfold reqFieldError
        rw [hwhy]
        simp [String.append_assoc]
      simp only [List.map_cons, List.map_nil, List.flatten, List.append_nil,
        List.mem_append, Nat.add_zero]
      left; left
      rw [herr]
      simp
  | msg :: rest, j, found, i + 1, m, hget, hwhy => by
      simp only [List.get?_cons_succ] at hget
      unfold problemsLoop
      simp only [List.mem_append]
      right
      have := problemsLoop_missing_why rest (j + 1)
        (match msg.get? "id" with
         | some idv => found ++ [idv]
         | none => found) i m hget hwhy
      have harith : j + 1 + i + 1 = j + (i + 1) + 1 := by omega
      rw [harith] at this
      rcases hid : msg.get? "id" with _ | idv
      · rw [hid] at this
        exact this
      · rw [hid] at this
        exact this
/-- C5: a problems payload with exactly 4 well-formed entries (distinct
ids) validates with no errors; with 3 or 5 entries it fails with the
error naming the actual count; an entry missing `why_problematic` makes
validation fail with an error naming that field and the entry's 1-based
index. -/
theorem c5_validate_problems_exactness (data : Json) (msgs : List Json)
    (hdata : data.get? "problematic_messages" = some (Json.arr msgs)) :
    (msgs.length = 4 → (∀ m ∈ msgs, wellFormedProblemMsg m = true) →
      (msgs.map (fun m => m.get? "id")).Nodup →
      validate_problems_artifact data = (true, [])) ∧
    (msgs.length = 3 ∨ msgs.length = 5 →
      validate_problems_artifact data =
        (false, ["Must have exactly 4 problematic messages, got " ++
          toString msgs.length])) ∧
    (∀ i m, msgs.length = 4 → msgs.get? i = some m →
      m.get? "why_problematic" = none →
      (validate_problems_artifact data).1 = false ∧
      ("Message " ++ toString (i + 1) ++
        ": Missing required field \x27why_problematic\x27") ∈
        (validate_problems_artifact data).2) := by
  refine ⟨?_, ?_, ?_⟩
  · intro h4 hwf hnodup
    simp only [validate_problems_artifact, hdata]
    rw [problemsLoop_nil msgs 0 [] hwf hnodup (by intro m _ v _ hv; simp at hv)]
    simp [h4]
  · intro hc
    rcases hc with h3 | h5
    · simp [validate_problems_artifact, hdata, h3]
    · simp [validate_problems_artifact, hdata, h5]
  · intro i m h4 hget hwhy
    have hmem := problemsLoop_missing_why msgs 0 [] i m hget hwhy
    have harith : 0 + i + 1 = i + 1 := by omega
    rw [harith] at hmem
    constructor
    · simp only [validate_problems_artifact, hdata, h4]
      cases herrs : problemsLoop 0 [] msgs with
      | nil => rw [herrs] at hmem; simp at hmem
      | cons a l => simp [herrs]
    · simp only [validate_problems_artifact, hdata, h4]
      simpa using hmem

/-- C5 witness: the three concrete payloads — 4 well-formed entries
validate, 3 entries fail naming the count, and a 4-entry payload whose
second entry lacks `why_problematic` fails naming field and index. -/
theorem c5_validate_problems_exactness_witness :
    validate_problems_artifact problemsPayload4 = (true, []) ∧
    validate_problems_artifact problemsPayload3 =
      (false, ["Must have exactly 4 problematic messages, got " ++ toString 3]) ∧
    ((validate_problems_artifact problemsPayloadNoWhy).1 = false ∧
      ("Message " ++ toString (1 + 1) ++
        ": Missing required field \x27why_problematic\x27") ∈
        (validate_problems_artifact problemsPayloadNoWhy).2) := by
  refine ⟨?_, ?_, ?_⟩
  · exact (c5_validate_problems_exactness problemsPayload4
      [mkProblem "msg_1", mkProblem "msg_2", mkProblem "msg_3", mkProblem "msg_4"]
      (by decide)).1 (by decide) (by decide) (by decide)
  · exact (c5_validate_problems_exactness problemsPayload3
      [mkProblem "msg_1", mkProblem "msg_2", mkProblem "msg_3"]
      (by decide)).2.1 (Or.inl (by decide))
  · exact (c5_validate_problems_exactness problemsPayloadNoWhy
      [mkProblem "msg_1", problemNoWhy, mkProblem "msg_3", mkProblem "msg_4"]
      (by decide)).2.2 1 problemNoWhy (by decide) (by decide) (by decide)
theorem categorize_total (task_name : String) (d : Json) (r : ExtractionResult) :
    (categorize_task_data task_name d r).total_tasks_found = r.total_tasks_found := by
  unfold categorize_task_data
  split_ifs <;> rfl

theorem processTaskStep_cases (r : ExtractionResult) (x : String × String) :
    processTaskStep r x = r ∨
    (processTaskStep r x).total_tasks_found = r.total_tasks_found + 1 := by
  unfold processTaskStep
  cases process_task_data x.2 with
  | none => left; rfl
  | some d =>
      by_cases hd : d.truthy
      · right
        simp only [hd, if_true]
        exact congrArg (· + 1) (categorize_total x.1 d r)
      · left
        simp [hd]

theorem foldl_processTaskStep_total_mono :
    ∀ (td : List (String × String)) (r : ExtractionResult),
    r.total_tasks_found ≤ (td.foldl processTaskStep r).total_tasks_found
  | [], _ => le_refl _
  | x :: rest, r => by
      simp only [List.foldl_cons]
      refine le_trans ?_ (foldl_processTaskStep_total_mono rest (processTaskStep r x))
      rcases processTaskStep_cases r x with h | h
      · rw [h]
      · omega

theorem foldl_processTaskStep_eq_of_total_eq :
    ∀ (td : List (String × String)) (r : ExtractionResult),
    (td.foldl processTaskStep r).total_tasks_found = r.total_tasks_found →
    td.foldl processTaskStep r = r
  | [], _, _ => rfl
  | x :: rest, r, h => by
      simp only [List.foldl_cons] at h ⊢
      rcases processTaskStep_cases r x with hs | hs
      · rw [hs] at h ⊢
        exact foldl_processTaskStep_eq_of_total_eq rest r h
      · exfalso
        have := foldl_processTaskStep_total_mono rest (processTaskStep r x)
        omega

theorem scanLoop_no_marker :
    ∀ (fuel : Nat) (lines : List String) (acc : List (String × String)),
    (∀ l ∈ lines, (strContains (pyStrip l) "status=\"completed\"" &&
      strContains (pyStrip l) "output=\"") = false) →
    scanLoop fuel lines acc = acc
  | 0, _, _, _ => rfl
  | _ + 1, [], _, _ => rfl
  | fuel + 1, l :: rest, acc, h => by
      have hl := h l (List.mem_cons_self _ _)
      unfold scanLoop
      rw [if_neg (by rw [hl]; exact Bool.false_ne_true)]
      exact scanLoop_no_marker fuel rest acc
        (fun l' hl' => h l' (List.mem_cons_of_mem _ hl'))
/-- C6: log extraction always returns a result (the function is total;
the source catches every exception and returns the result dict): the
success flag is true exactly when the recovered-task count of the result
reaches the 3-of-4 threshold; a missing log file yields the all-null
result; when nothing was recovered (count 0) every bucket is null and
success is false — in particular for a transcript with no completion
markers. -/
theorem c6_extraction_failure_semantics (fs : String → Option (List String))
    (path : String) :
    ((parse_session_log fs path).parsing_success = true ↔
      (parse_session_log fs path).total_tasks_found ≥ 3) ∧
    (fs path = none →
      parse_session_log fs path =
        { emptyExtractionResult with
            extraction_log := ["Log file not found: " ++ path] }) ∧
    ((parse_session_log fs path).total_tasks_found = 0 →
      (parse_session_log fs path).scenario_data = none ∧
      (parse_session_log fs path).problematic_messages = none ∧
      (parse_session_log fs path).corrected_messages = none ∧
      (parse_session_log fs path).playbook_data = none ∧
      (parse_session_log fs path).parsing_success = false) ∧
    (∀ lines, fs path = some lines →
      (∀ l ∈ lines, (strContains (pyStrip l) "status=\"completed\"" &&
        strContains (pyStrip l) "output=\"") = false) →
      (parse_session_log fs path).total_tasks_found = 0) := by
  refine ⟨?_, ?_, ?_, ?_⟩
  · cases hfs : fs path with
    | none =>
        unfold parse_session_log
        rw [hfs]
        simp [emptyExtractionResult]
    | some lines =>
        unfold parse_session_log
        rw [hfs]
        simp only []
        constructor
        · intro h
          exact of_decide_eq_true h
        · intro h
          exact decide_eq_true h
  · intro hfs
    unfold parse_session_log
    rw [hfs]
  · cases hfs : fs path with
    | none =>
        intro _
        unfold parse_session_log
        rw [hfs]
        refine ⟨rfl, rfl, rfl, rfl, rfl⟩
    | some lines =>
        intro h0
        unfold parse_session_log at h0 ⊢
        rw [hfs] at h0 ⊢
        simp only [] at h0 ⊢
        have heq := foldl_processTaskStep_eq_of_total_eq
          (extract_multiline_task_completions lines) _ h0
        rw [heq]
        refine ⟨rfl, rfl, rfl, rfl, ?_⟩
        show decide (emptyExtractionResult.total_tasks_found ≥ 3) = false
        decide
  · intro lines hfs hmark
    unfold parse_session_log
    rw [hfs]
    simp only []
    unfold extract_multiline_task_completions
    rw [scanLoop_no_marker lines.length lines [] hmark]
    rfl
/-- C6 witness: a nonexistent file and a two-line transcript with no
completion markers both return results with null buckets and
`success=false`. -/
theorem c6_extraction_failure_semantics_witness :
    parse_session_log (fun _ => none) "missing.log" =
      { emptyExtractionResult with
          extraction_log := ["Log file not found: " ++ "missing.log"] } ∧
    (parse_session_log (fun _ => some ["hello", "world"]) "run.log").total_tasks_found = 0 ∧
    (parse_session_log (fun _ => some ["hello", "world"]) "run.log").scenario_data = none ∧
    (parse_session_log (fun _ => some ["hello", "world"]) "run.log").parsing_success = false := by
  have h1 := (c6_extraction_failure_semantics (fun _ => none) "missing.log").2.1 rfl
  have h4 := (c6_extraction_failure_semantics
      (fun _ => some ["hello", "world"]) "run.log").2.2.2 ["hello", "world"] rfl (by decide)
  have h3 := (c6_extraction_failure_semantics
      (fun _ => some ["hello", "world"]) "run.log").2.2.1 h4
  exact ⟨h1, h4, h3.1, h3.2.2.2.2⟩
theorem mapGetJ_assocSetJ (m : List (Json × Json)) (k : Json) (v : Json) (k' : Json) :
    mapGetJ (assocSetJ m k v) k' = if k' = k then some v else mapGetJ m k' := by
  induction m with
  | nil =>
      by_cases h : k' = k
      · subst h; simp [assocSetJ, mapGetJ]
      · have h2 : ¬(k = k') := fun hc => h hc.symm
        simp [assocSetJ, mapGetJ, h, h2]
  | cons kv rest ih =>
      obtain ⟨k0, v0⟩ := kv
      unfold assocSetJ
      by_cases h0 : k0 = k
      · rw [if_pos h0]
        by_cases h' : k' = k
        · subst h0
          unfold mapGetJ
          rw [if_pos h'.symm, if_pos h']
        · subst h0
          unfold mapGetJ
          rw [if_neg (fun hc : k0 = k' => h' hc.symm),
            if_neg (fun hc : k0 = k' => h' hc.symm), if_neg h']
      · rw [if_neg h0]
        unfold mapGetJ
        by_cases hk0 : k0 = k'
        · rw [if_pos hk0, if_pos hk0]
          have : ¬(k' = k) := fun hc => h0 (hk0.trans hc)
          rw [if_neg this]
        · rw [if_neg hk0, if_neg hk0, ih]

theorem mapGetJ_foldl_correctionStep :
    ∀ (cs : List Json) (acc : List (Json × Json)) (k : Json) (c : Json),
    mapGetJ (cs.foldl correctionStep acc) k = some c →
    mapGetJ acc k = some c ∨
      (c ∈ cs ∧ Json.getD c "original_message_id" (Json.str "") = k)
  | [], acc, k, c, h => Or.inl h
  | c0 :: rest, acc, k, c, h => by
      simp only [List.foldl_cons] at h
      rcases mapGetJ_foldl_correctionStep rest (correctionStep acc c0) k c h with h1 | h1
      · unfold correctionStep at h1
        by_cases ht : (Json.getD c0 "original_message_id" (Json.str "")).truthy
        · rw [if_pos ht, mapGetJ_assocSetJ] at h1
          by_cases hk : k = Json.getD c0 "original_message_id" (Json.str "")
          · rw [if_pos hk] at h1
            right
            refine ⟨?_, ?_⟩
            · rw [← Option.some.inj h1]; exact List.mem_cons_self _ _
            · rw [← Option.some.inj h1, hk]
          · rw [if_neg hk] at h1
            exact Or.inl h1
        · rw [if_neg ht] at h1
          exact Or.inl h1
      · exact Or.inr ⟨List.mem_cons_of_mem _ h1.1, h1.2⟩

theorem mapGetJ_buildCorrectionMap {cs : List Json} {k : Json} {c : Json}
    (h : mapGetJ (buildCorrectionMap cs) k = some c) :
    c ∈ cs ∧ Json.getD c "original_message_id" (Json.str "") = k := by
  rcases mapGetJ_foldl_correctionStep cs [] k c h with h1 | h1
  · simp [mapGetJ] at h1
  · exact h1

theorem pairsGo_length (cmap : List (Json × Json)) :
    ∀ (ps : List Json) (i : Nat), (pairsGo cmap i ps).length = ps.length
  | [], _ => rfl
  | _ :: rest, i => by
      unfold pairsGo
      simp only [List.length_cons]
      rw [pairsGo_length cmap rest (i + 1)]

theorem pairsGo_get? (cmap : List (Json × Json)) :
    ∀ (ps : List Json) (i j : Nat) (pr : MessagePair),
    (pairsGo cmap i ps).get? j = some pr →
    ∃ p, ps.get? j = some p ∧
      pr.pair_id = Json.getD p "id" (Json.str (toString (i + j + 1))) ∧
      pr.problematic = p ∧
      pr.correction = mapGetJ cmap pr.pair_id ∧
      pr.has_correction = pr.correction.isSome ∧
      pr.integration_complete = validate_message_pair p pr.correction
  | [], _, j, pr, h => by simp [pairsGo] at h
  | p :: rest, i, 0, pr, h => by
      unfold pairsGo at h
      simp only [List.get?_cons_zero, Option.some.injEq] at h
      refine ⟨p, rfl, ?_⟩
      rw [← h]
      refine ⟨by simp, rfl, rfl, rfl, rfl⟩
  | p :: rest, i, j + 1, pr, h => by
      unfold pairsGo at h
      simp only [List.get?_cons_succ] at h
      obtain ⟨q, hq, hrest⟩ := pairsGo_get? cmap rest (i + 1) j pr h
      refine ⟨q, by simpa using hq, ?_⟩
      have harith : i + 1 + j + 1 = i + (j + 1) + 1 := by omega
      rw [harith] at hrest
      exact hrest
/-- C8: each problem entry is paired to a correction by matching the
correction's `original_message_id` against the problem's id; a problem
matching no correction yields a pair with no correction, flagged
incomplete; and a pair is flagged complete only if the correction's
`changes_made` and the problem's `problems_identified` are both
non-empty — a matching identifier alone is not sufficient. -/
theorem c8_message_pair_integration (pd cd : Json) :
    (integrate_message_pairs pd cd).length =
      (Json.getD pd "problematic_messages" (Json.arr [])).pyElems.length ∧
    (∀ j pr, (integrate_message_pairs pd cd).get? j = some pr →
      (∀ c, pr.correction = some c →
        c ∈ (Json.getD cd "corrected_messages" (Json.arr [])).pyElems ∧
        Json.getD c "original_message_id" (Json.str "") = pr.pair_id) ∧
      ((∀ c ∈ (Json.getD cd "corrected_messages" (Json.arr [])).pyElems,
          Json.getD c "original_message_id" (Json.str "") ≠ pr.pair_id) →
        pr.correction = none ∧ pr.has_correction = false ∧
        pr.integration_complete = false) ∧
      (pr.integration_complete = true →
        ∃ c, pr.correction = some c ∧
          (Json.getD c "changes_made" (Json.arr [])).pyLen > 0 ∧
          (Json.getD pr.problematic "problems_identified" (Json.arr [])).pyLen > 0)) := by
  constructor
  · unfold integrate_message_pairs
    exact pairsGo_length _ _ 0
  · intro j pr hget
    unfold integrate_message_pairs at hget
    obtain ⟨p, _, hid, hprob, hcorr, hhas, hcomp⟩ := pairsGo_get? _ _ 0 j pr hget
    refine ⟨?_, ?_, ?_⟩
    · intro c hc
      rw [hc] at hcorr
      exact mapGetJ_buildCorrectionMap hcorr.symm
    · intro hnone
      have hcn : pr.correction = none := by
        rw [hcorr]
        cases hm : mapGetJ (buildCorrectionMap
            (Json.getD cd "corrected_messages" (Json.arr [])).pyElems) pr.pair_id with
        | none => rfl
        | some c =>
            obtain ⟨hmem, hoid⟩ := mapGetJ_buildCorrectionMap hm
            exact absurd hoid (hnone c hmem)
      refine ⟨hcn, ?_, ?_⟩
      · rw [hhas, hcn]; rfl
      · rw [hcomp, hcn]
        rfl
    · intro hcompl
      rw [hcomp] at hcompl
      rw [hprob]
      cases hc : pr.correction with
      | none =>
          rw [hc] at hcompl
          simp [validate_message_pair] at hcompl
      | some c =>
          rw [hc] at hcompl
          refine ⟨c, rfl, ?_⟩
          unfold validate_message_pair at hcompl
          by_cases ht : c.truthy
          · simp [ht] at hcompl
            exact ⟨hcompl.1, hcompl.2⟩
          · simp [ht] at hcompl
/-- C8 witness: over two problems `m1`, `m2` and a single correction for
`m1`, the pair at index 1 has no correction and is incomplete; and with
a correction for `m1` listing zero `changes_made`, the matched pair at
index 0 is still flagged incomplete. -/
theorem c8_message_pair_integration_witness :
    (integrate_message_pairs c8problems c8corrections).get? 1 =
      some { pair_id := Json.str "m2"
             problematic := mkProblem "m2"
             correction := none
             has_correction := false
             integration_complete := false } ∧
    ((integrate_message_pairs c8problems c8corrections).get? 1).map
      MessagePair.integration_complete = some false ∧
    ((integrate_message_pairs c8problems c8correctionsEmptyChanges).get? 0).map
      MessagePair.integration_complete = some false ∧
    ((integrate_message_pairs c8problems c8correctionsEmptyChanges).get? 0).map
      MessagePair.has_correction = some true := by
  have hget : (integrate_message_pairs c8problems c8corrections).get? 1 =
      some { pair_id := Json.str "m2"
             problematic := mkProblem "m2"
             correction := none
             has_correction := false
             integration_complete := false } := by decide
  have h := ((c8_message_pair_integration c8problems c8corrections).2 1 _ hget).2.1
    (by decide)
  refine ⟨hget, ?_, by decide, by decide⟩
  rw [hget]
  exact congrArg some h.2.2
/-- C9 (amended): the dataset-level `is_complete` flag is true exactly
when at least 3 of the 4 artifact kinds are present (truthy) and the
*average* of the present kinds' scores is at least 60 — no per-kind
threshold is applied (see the counterexample). -/
theorem c9_is_complete_policy (d : ExtractionResult) :
    (validate_complete_dataset d).is_complete = true ↔
      3 ≤ (presentScores d).length ∧
      60 ≤ (presentScores d).sum / ((presentScores d).length : ℚ) := by
  obtain ⟨sd, pm, cm, pb, lg, ps, tt⟩ := d
  cases sd <;> cases pm <;> cases cm <;> cases pb <;>
    simp only [validate_complete_dataset, presentScores, bucketScore] <;>
    split_ifs <;>
    simp_all [Bool.and_eq_true, decide_eq_true_eq]
/-- C9 counterexample: a dataset whose four kinds are all present and
whose average score is 72.5 is `is_complete`, although its present
scenario kind scores 0 — no per-kind minimum quality threshold is
applied, contrary to the claim. -/
theorem c9_counterexample :
    (validate_complete_dataset c9dataset).is_complete = true ∧
    c9dataset.scenario_data = some c9scenario ∧
    c9scenario.truthy = true ∧
    validate_scenario_completeness c9scenario = 0 := by
  refine ⟨?_, rfl, by decide, by decide⟩
  have h1 : bucketScore c9dataset.scenario_data validate_scenario_completeness
      "Missing scenario data" = ([((0 : ℕ) : ℚ)], []) := by
    show bucketScore (some c9scenario) _ _ = _
    simp only [bucketScore]
    rw [if_pos (by decide), show validate_scenario_completeness c9scenario = 0 from by decide]
  have h2 : bucketScore c9dataset.problematic_messages validate_mistakes_completeness
      "Missing problematic messages data" = ([((100 : ℕ) : ℚ)], []) := by
    show bucketScore (some c9problems) _ _ = _
    simp only [bucketScore]
    rw [if_pos (by decide), show validate_mistakes_completeness c9problems = 100 from by decide]
  have h3 : bucketScore c9dataset.corrected_messages validate_corrections_completeness
      "Missing corrections data" = ([((100 : ℕ) : ℚ)], []) := by
    show bucketScore (some c9corrections) _ _ = _
    simp only [bucketScore]
    rw [if_pos (by decide),
      show validate_corrections_completeness c9corrections = 100 from by decide]
  have h4 : bucketScore c9dataset.playbook_data validate_playbook_completeness
      "Missing playbook data" = ([((90 : ℕ) : ℚ)], []) := by
    show bucketScore (some c9playbook) _ _ = _
    simp only [bucketScore]
    rw [if_pos (by decide), show validate_playbook_completeness c9playbook = 90 from by decide]
  unfold validate_complete_dataset
  rw [h1, h2, h3, h4]
  norm_num
/-- End-to-end sanity check of the extraction machinery (not tied to a
single claim): a realistic two-task transcript — timestamp prefixes,
multi-line JSON, trailing log quotes — extracts both buckets. -/
theorem extraction_end_to_end_example :
    (parse_session_log (fun _ => some
      ["2025-01-02 11:22:33: task_name=\"scenario_creation_task\" status=\"completed\" output=\"\x7b\"company_name\": \"EcoThread\", \"industry\": \"retail\", \"product_service\": \"apparel\"",
       "\x7d\"",
       "2025-01-02 11:22:34: task_name=\"mistake_generation_task\" status=\"completed\" output=\"\x7b\"problematic_messages\": []",
       "\x7d\""]) "run.log").scenario_data =
      some (Json.obj
        [("company_name", Json.str "EcoThread"),
         ("industry", Json.str "retail"),
         ("product_service", Json.str "apparel")]) ∧
    (parse_session_log (fun _ => some
      ["2025-01-02 11:22:33: task_name=\"scenario_creation_task\" status=\"completed\" output=\"\x7b\"company_name\": \"EcoThread\", \"industry\": \"retail\", \"product_service\": \"apparel\"",
       "\x7d\"",
       "2025-01-02 11:22:34: task_name=\"mistake_generation_task\" status=\"completed\" output=\"\x7b\"problematic_messages\": []",
       "\x7d\""]) "run.log").total_tasks_found = 2 := by
  constructor
  · decide
  · decide
